import Mathlib

/-!
Verification development for the znova_fleet metadata-driven ORM core:
a shallow embedding of the domain expression engine
(backend/core/domain_engine.py), the policy engine (backend/core/policy.py),
the audit tracker (backend/core/audit_tracker.py) and the record runtime
(backend/core/base_model.py), with theorems settling the specified
behavioural claims.

Python dynamic values are embedded as the inductive type `PyVal`.
Python floats are modelled as rationals (exact for every comparison the
embedded code performs); Python object identity is not representable, so
two distinct bare objects always compare unequal (the default `object.__eq__`
behaviour for distinct objects).  Python stdlib primitives that the embedded
code calls (`ast.literal_eval`, `re.search`, `datetime.fromisoformat`,
`float`/`int` string parsing) are threaded through as explicit oracle
parameters, so every theorem quantifies over their behaviour.
-/

namespace ZnovaFleet

/-- Embedding of the Python values that flow through the engine:
literals produced by `ast.literal_eval`, record payload dicts, ORM objects
(attribute maps), and `datetime.date`/`datetime.datetime` instances
(represented by an ordinal day and a time-of-day component). -/
inductive PyVal where
  | none
  | bool (b : Bool)
  | int (n : Int)
  | float (q : ℚ)
  | str (s : String)
  | list (xs : List PyVal)
  | tuple (xs : List PyVal)
  | dict (kvs : List (String × PyVal))
  | obj (attrs : List (String × PyVal))
  | date (d : Int)
  | datetime (d : Int) (t : Int)

/-- Association-list lookup, mirroring `dict.get(key)` / `key in dict`
(first binding wins; Python dict literals have unique keys). -/
def dget : List (String × PyVal) → String → Option PyVal
  | [], _ => Option.none
  | (k, v) :: rest, key => if k == key then some v else dget rest key

/-- Numeric value of a Python bool (`True == 1`, `False == 0`). -/
def boolNum (b : Bool) : Int := if b then 1 else 0

mutual

/-- Python `==` on embedded values: numeric cross-type equality between
`bool`/`int`/`float`, structural equality on strings, lists, tuples and
dicts, and disequality across unrelated types.  Bare objects compare by
identity in Python; distinct embedded objects are therefore unequal. -/
def pyEq : PyVal → PyVal → Bool
  | .none, .none => true
  | .bool a, .bool b => a == b
  | .bool a, .int n => boolNum a == n
  | .bool a, .float q => (boolNum a : ℚ) == q
  | .int n, .bool b => n == boolNum b
  | .int m, .int n => m == n
  | .int n, .float q => (n : ℚ) == q
  | .float q, .bool b => q == (boolNum b : ℚ)
  | .float q, .int n => q == (n : ℚ)
  | .float p, .float q => p == q
  | .str a, .str b => a == b
  | .list xs, .list ys => pyEqList xs ys
  | .tuple xs, .tuple ys => pyEqList xs ys
  | .dict xs, .dict ys => xs.length == ys.length && pyEqDictSub xs ys
  | .date a, .date b => a == b
  | .datetime a t, .datetime b u => a == b && t == u
  | _, _ => false
termination_by structural a => a

/-- Elementwise Python `==` on sequences. -/
def pyEqList : List PyVal → List PyVal → Bool
  | [], [] => true
  | x :: xs, y :: ys => pyEq x y && pyEqList xs ys
  | _, _ => false
termination_by structural a => a

/-- Every binding of the first dict is present (with `==` value) in the
second; used with a length check to embed Python dict equality. -/
def pyEqDictSub : List (String × PyVal) → List (String × PyVal) → Bool
  | [], _ => true
  | (k, v) :: rest, ys =>
    (match ys.find? (fun p => p.1 == k) with
     | some p => pyEq v p.2
     | Option.none => false) && pyEqDictSub rest ys
termination_by structural a => a

end

/-- Python truthiness (`bool(value)`). -/
def pyTruthy : PyVal → Bool
  | .none => false
  | .bool b => b
  | .int n => n != 0
  | .float q => q != 0
  | .str s => s != ""
  | .list xs => !xs.isEmpty
  | .tuple xs => !xs.isEmpty
  | .dict kvs => !kvs.isEmpty
  | .obj _ => true
  | .date _ => true
  | .datetime _ _ => true

mutual

/-- Python `<` on embedded values; `.error ()` models the `TypeError`
raised on unordered cross-type comparisons. -/
def pyLt : PyVal → PyVal → Except Unit Bool
  | .bool a, .bool b => .ok (decide (boolNum a < boolNum b))
  | .bool a, .int n => .ok (decide (boolNum a < n))
  | .bool a, .float q => .ok (decide ((boolNum a : ℚ) < q))
  | .int n, .bool b => .ok (decide (n < boolNum b))
  | .int m, .int n => .ok (decide (m < n))
  | .int n, .float q => .ok (decide ((n : ℚ) < q))
  | .float q, .bool b => .ok (decide (q < (boolNum b : ℚ)))
  | .float q, .int n => .ok (decide (q < (n : ℚ)))
  | .float p, .float q => .ok (decide (p < q))
  | .str a, .str b => .ok (decide (a < b))
  | .list xs, .list ys => pyLtList xs ys
  | .tuple xs, .tuple ys => pyLtList xs ys
  | .date a, .date b => .ok (decide (a < b))
  | .datetime a t, .datetime b u => .ok (decide (a < b ∨ (a = b ∧ t < u)))
  | _, _ => .error ()
termination_by structural a => a

/-- Python lexicographic `<` on sequences: skip `==` pairs, decide at the
first differing pair (which may itself raise `TypeError`). -/
def pyLtList : List PyVal → List PyVal → Except Unit Bool
  | [], [] => .ok false
  | [], _ :: _ => .ok true
  | _ :: _, [] => .ok false
  | x :: xs, y :: ys => if pyEq x y then pyLtList xs ys else pyLt x y
termination_by structural a => a

end

mutual

/-- Python `repr()` on embedded values (string quoting uses the single
quote character, built numerically to keep the file ASCII-clean; escape
sequences inside strings are not re-encoded). -/
def pyRepr : PyVal → String
  | .none => "None"
  | .bool b => if b then "True" else "False"
  | .int n => toString n
  | .float q => toString q
  | .str s => String.singleton (Char.ofNat 39) ++ s ++ String.singleton (Char.ofNat 39)
  | .list xs => "[" ++ String.intercalate ", " (pyReprList xs) ++ "]"
  | .tuple [x] => "(" ++ pyRepr x ++ ",)"
  | .tuple xs => "(" ++ String.intercalate ", " (pyReprList xs) ++ ")"
  | .dict kvs => "\x7b" ++ String.intercalate ", " (pyReprDict kvs) ++ "\x7d"
  | .obj _ => "<object>"
  | .date d => "<date " ++ toString d ++ ">"
  | .datetime d t => "<datetime " ++ toString d ++ " " ++ toString t ++ ">"
termination_by structural a => a

/-- `repr` of each element of a sequence. -/
def pyReprList : List PyVal → List String
  | [] => []
  | x :: xs => pyRepr x :: pyReprList xs
termination_by structural a => a

/-- `repr` of each binding of a dict. -/
def pyReprDict : List (String × PyVal) → List String
  | [] => []
  | (k, v) :: rest =>
      (String.singleton (Char.ofNat 39) ++ k ++ String.singleton (Char.ofNat 39)
        ++ ": " ++ pyRepr v) :: pyReprDict rest
termination_by structural a => a

end

/-- Python `str()`: identity on strings, `repr` rendering otherwise
(date/datetime rendering is a canonical placeholder; no verified claim
inspects it). -/
def pyStr : PyVal → String
  | .str s => s
  | v => pyRepr v

/-!
Kernel-reducible string primitives.  The corresponding core-library
functions (String.splitOn, String.trim, ...) are compiled by well-founded
recursion and do not evaluate inside the kernel, so the embedding uses
these character-list implementations with the same behaviour as the
Python operations they stand for.
-/

/-- Is the first character list a prefix of the second? -/
def charsIsPrefix : List Char → List Char → Bool
  | [], _ => true
  | _ :: _, [] => false
  | p :: ps, x :: xs => p == x && charsIsPrefix ps xs

/-- Python substring containment (`pat in s`). -/
def charsContains : List Char → List Char → Bool
  | [], pat => pat.isEmpty
  | x :: xs, pat => charsIsPrefix pat (x :: xs) || charsContains xs pat

/-- `needle in haystack` on Python strings (substring containment). -/
def strContainsSub (s pat : String) : Bool :=
  charsContains s.data pat.data

/-- Split a character list at every occurrence of the separator
(Python str.split with a one-character separator: empty input yields
one empty field). -/
def charsSplitOn (c : Char) : List Char → List (List Char)
  | [] => [[]]
  | x :: xs =>
    let r := charsSplitOn c xs
    if x == c then [] :: r
    else
      match r with
      | y :: ys => (x :: y) :: ys
      | [] => [[x]]

/-- Python s.split(sep) for a one-character separator. -/
def strSplitChar (s : String) (c : Char) : List String :=
  (charsSplitOn c s.data).map (fun l => String.mk l)

/-- Split at whitespace characters (refined below into Python's
no-argument str.split, which drops empty fields). -/
def charsSplitWs : List Char → List (List Char)
  | [] => [[]]
  | x :: xs =>
    let r := charsSplitWs xs
    if x.isWhitespace then [] :: r
    else
      match r with
      | y :: ys => (x :: y) :: ys
      | [] => [[x]]

/-- Python s.split() — whitespace runs as separators, no empty fields. -/
def strFields (s : String) : List String :=
  ((charsSplitWs s.data).map (fun l => String.mk l)).filter (fun t => t != "")

/-- Python s.strip() (ASCII whitespace; the engine only ever strips
spaces, tabs and newlines). -/
def pyStripStr (s : String) : String :=
  String.mk (((s.data.dropWhile Char.isWhitespace).reverse.dropWhile Char.isWhitespace).reverse)

/-- Does the string start with the given character? -/
def strStartsWithChar (s : String) (c : Char) : Bool :=
  match s.data with
  | [] => false
  | x :: _ => x == c

/-- Does the string end with the given character? -/
def strEndsWithChar (s : String) (c : Char) : Bool :=
  match s.data.getLast? with
  | some x => x == c
  | Option.none => false

/-- Python s.startswith(pre). -/
def strStartsWithStr (s pre : String) : Bool :=
  charsIsPrefix pre.data s.data

/-- Replace every occurrence of a one-character pattern (all the
str.replace calls in the embedded code have one-character patterns). -/
def charsReplace1 (pat : Char) (repl : List Char) : List Char → List Char
  | [] => []
  | x :: xs => (if x == pat then repl else [x]) ++ charsReplace1 pat repl xs

/-- Python s.replace(pat, repl) for a one-character pattern. -/
def strReplaceChar (s : String) (pat : Char) (repl : String) : String :=
  String.mk (charsReplace1 pat repl.data s.data)

/-- Python s.lower() (ASCII lowering, matching the role names and SQL
error messages the engine compares). -/
def strLower (s : String) : String :=
  String.mk (s.data.map Char.toLower)

/-- Python list/tuple membership (`x in xs`, element compared with `==`). -/
def pyMem (x : PyVal) : List PyVal → Bool
  | [] => false
  | y :: ys => pyEq x y || pyMem x ys

/-! ## Domain expression engine (backend/core/domain_engine.py) -/

/-- The Python stdlib primitives the engine calls, threaded as oracles:
`litEval` is `ast.literal_eval` (`.error` = `ValueError`/`SyntaxError`),
`reSearch pattern s` is `bool(re.search(pattern, s))` (`.error` =
`re.error` on an invalid compiled pattern). -/
structure PyStdlib where
  litEval : String → Except Unit PyVal
  reSearch : String → String → Except Unit Bool

/-- A single domain condition, as in the source dataclass. -/
structure DomainCondition where
  field : String
  op : String
  value : PyVal

/-- A group of conditions with implicit AND logic. -/
structure DomainGroup where
  conditions : List DomainCondition

/-- The parsed domain expression: groups joined by logical operators. -/
structure DomainAST where
  groups : List DomainGroup
  operators : List String

/-- Parse failure, corresponding to the DomainParseError exception. -/
structure DomainParseError where
  msg : String

/-- Evaluation failure, corresponding to the DomainEvaluationError
exception; the three constructors record which source branch raised
(invalid user context, wrapped parse error, or the generic wrapper). -/
inductive DomainEvaluationError where
  | contextError (msg : String)
  | parseError (msg : String)
  | evaluationError (msg : String)

/-- DomainEngine.SUPPORTED_OPERATORS. -/
def SUPPORTED_OPERATORS : List String :=
  ["=", "!=", "<", ">", "<=", ">=", "in", "not in", "like", "ilike"]

/-- Is this parsed element one of the logical operator tokens from
DomainEngine.LOGICAL_OPERATORS? -/
def is_logical_op : PyVal → Bool
  | .str s => s == "&" || s == "|"
  | _ => false

/-- The per-triple checks shared by the simple and complex parsers:
field must be a string, operator a supported operator string. -/
def parse_condition_triple (f o v : PyVal) : Except DomainParseError DomainCondition :=
  match f with
  | .str fs =>
    match o with
    | .str os =>
      if SUPPORTED_OPERATORS.contains os then .ok ⟨fs, os, v⟩
      else .error ⟨"Unsupported operator"⟩
    | _ => .error ⟨"Unsupported operator"⟩
  | _ => .error ⟨"Field name must be a string"⟩

/-- One condition element: must be a list or tuple of length 3
(isinstance(item, (list, tuple)) and len(item) == 3). -/
def parse_condition_item (item : PyVal) : Except DomainParseError DomainCondition :=
  match item with
  | .list [f, o, v] => parse_condition_triple f o v
  | .tuple [f, o, v] => parse_condition_triple f o v
  | _ => .error ⟨"Each condition must be a 3-tuple (field, operator, value)"⟩

/-- The condition-group loop shared by the simple parser and the group
branch of the complex parser (the source duplicates this loop verbatim
in _parse_simple_expression and _parse_complex_expression): conditions
are collected in order, raising at the first malformed item. -/
def parse_simple_items : List PyVal → Except DomainParseError (List DomainCondition)
  | [] => .ok []
  | x :: rest =>
    match parse_condition_item x with
    | .error e => .error e
    | .ok c =>
      match parse_simple_items rest with
      | .error e => .error e
      | .ok cs => .ok (c :: cs)

/-- The while-loop body of DomainEngine._parse_complex_expression: a
logical-operator string is recorded, a list is parsed as a group of
conditions, a bare 3-tuple becomes a single-condition group, anything
else raises. -/
def parse_complex_items : List PyVal → Except DomainParseError (List DomainGroup × List String)
  | [] => .ok ([], [])
  | item :: rest =>
    match item with
    | .str s =>
      if s == "&" || s == "|" then
        match parse_complex_items rest with
        | .error e => .error e
        | .ok (gs, ops) => .ok (gs, s :: ops)
      else .error ⟨"Invalid item in complex expression"⟩
    | .list xs =>
      match parse_simple_items xs with
      | .error e => .error e
      | .ok conds =>
        match parse_complex_items rest with
        | .error e => .error e
        | .ok (gs, ops) => .ok (DomainGroup.mk conds :: gs, ops)
    | .tuple [f, o, v] =>
      match parse_condition_triple f o v with
      | .error e => .error e
      | .ok c =>
        match parse_complex_items rest with
        | .error e => .error e
        | .ok (gs, ops) => .ok (DomainGroup.mk [c] :: gs, ops)
    | _ => .error ⟨"Invalid item in complex expression"⟩

/-- DomainEngine.parse_expression: empty input parses to the empty AST;
otherwise the trimmed text must be bracket-wrapped, is fed to
ast.literal_eval, and the resulting list is parsed in complex mode when
it contains a nested list or a logical-operator token, in simple
(implicit AND) mode otherwise.  Every failure, including any exception
out of literal_eval, surfaces as a DomainParseError. -/
def parse_expression (env : PyStdlib) (expression : String) : Except DomainParseError DomainAST :=
  if pyStripStr expression == "" then .ok ⟨[], []⟩
  else if !(strStartsWithChar (pyStripStr expression) (Char.ofNat 91)
      && strEndsWithChar (pyStripStr expression) (Char.ofNat 93)) then
    .error ⟨"Domain expression must be wrapped in brackets"⟩
  else
    match env.litEval (pyStripStr expression) with
    | .error _ => .error ⟨"Invalid domain expression syntax"⟩
    | .ok parsed =>
      match parsed with
      | .list items =>
        if (items.any fun i => match i with | PyVal.list _ => true | _ => false)
            || items.any is_logical_op then
          match parse_complex_items items with
          | .error e => .error e
          | .ok (gs, ops) =>
            if (ops.length : Int) != (gs.length : Int) - 1 then
              .error ⟨"Number of operators must be one less than number of groups"⟩
            else .ok ⟨gs, ops⟩
        else
          match parse_simple_items items with
          | .error e => .error e
          | .ok conds => .ok ⟨[DomainGroup.mk conds], []⟩
      | _ => .error ⟨"Domain expression must be a list"⟩

/-- DomainEngine.validate_secure_user_context: the context must be
non-empty, carry the JWT provenance tag, contain the id, email and role
keys, and hold a dict with a name key under role. -/
def validate_secure_user_context (u : List (String × PyVal)) : Bool :=
  if u.isEmpty then false
  else if !(match dget u "_source" with | some (.str s) => s == "jwt" | _ => false) then false
  else if (dget u "id").isNone then false
  else if (dget u "email").isNone then false
  else if (dget u "role").isNone then false
  else
    match dget u "role" with
    | some (.dict kvs) => (dget kvs "name").isSome
    | _ => false

/-- Python truthiness of the optional user-context argument
(None or an empty dict is falsy). -/
def truthyCtx : Option (List (String × PyVal)) → Bool
  | some (_ :: _) => true
  | _ => false

/-- The user-context walk of DomainEngine._get_field_value: dict lookup
or getattr with None default, stopping (and returning None) as soon as a
step yields None. -/
def user_ctx_walk : PyVal → List String → PyVal
  | v, [] => v
  | v, p :: rest =>
    let next := match v with
      | .dict kvs => (dget kvs p).getD PyVal.none
      | .obj attrs => (dget attrs p).getD PyVal.none
      | _ => PyVal.none
    match next with
    | .none => PyVal.none
    | nv => user_ctx_walk nv rest
termination_by structural v parts => parts

/-- The record-context walk of DomainEngine._get_field_value: dict lookup,
else attribute lookup when the attribute exists, else None; a None value
at any step returns None. -/
def ctx_walk : PyVal → List String → PyVal
  | v, [] => v
  | v, p :: rest =>
    match v with
    | .dict kvs =>
      match (dget kvs p).getD PyVal.none with
      | .none => PyVal.none
      | nv => ctx_walk nv rest
    | .obj attrs =>
      match dget attrs p with
      | some .none => PyVal.none
      | some nv => ctx_walk nv rest
      | Option.none => PyVal.none
    | _ => PyVal.none
termination_by structural v parts => parts

/-- DomainEngine._get_field_value: a dotted path rooted at the literal
segment user resolves against a truthy user context; every other path
resolves against the record context. -/
def get_field_value (path : String) (ctx : List (String × PyVal))
    (uctx : Option (List (String × PyVal))) : PyVal :=
  match strSplitChar path '.' with
  | [] => PyVal.none
  | p0 :: rest =>
    if p0 == "user" && truthyCtx uctx then
      match uctx with
      | some u => user_ctx_walk (.dict u) rest
      | Option.none => PyVal.none
    else ctx_walk (.dict ctx) (p0 :: rest)

/-- Is this value the Python None object? -/
def is_none : PyVal → Bool
  | .none => true
  | _ => false

/-- DomainEngine._is_empty_value: None, boolean False, whitespace-only
strings, empty collections, numeric zero, and many2one dicts whose id is
None or Python-equal to 0 or the empty string are empty. -/
def is_empty_value (v : PyVal) : Bool :=
  match v with
  | .none => true
  | .bool b => !b
  | .str s => pyStripStr s == ""
  | .list xs => xs.isEmpty
  | .tuple xs => xs.isEmpty
  | .dict kvs =>
      if kvs.isEmpty then true
      else
        match dget kvs "id" with
        | some i => is_none i || pyEq i (PyVal.int 0) || pyEq i (PyVal.str "")
        | Option.none => false
  | .int n => n == 0
  | .float q => q == 0
  | _ => false

/-- DomainEngine._compare_equal: the literal False compares via the empty
convention; None only equals None; a many2one dict is reduced to its id;
a boolean expectation compares truthiness; a string expectation compares
against str(field); otherwise plain Python equality. -/
def compare_equal (fv ev : PyVal) : Bool :=
  match ev with
  | .bool false => is_empty_value fv
  | _ =>
    if is_none fv && is_none ev then true
    else if is_none fv || is_none ev then false
    else
      let fv2 := match fv with
        | .dict kvs =>
          match dget kvs "id" with
          | some i => i
          | Option.none => PyVal.dict kvs
        | other => other
      match ev with
      | .bool b => pyTruthy fv2 == b
      | .str s => pyStr fv2 == s
      | _ => pyEq fv2 ev

/-- DomainEngine._compare_less_than: None never compares; a TypeError
falls back to comparing the str() renderings. -/
def compare_less_than (fv ev : PyVal) : Bool :=
  if is_none fv || is_none ev then false
  else
    match pyLt fv ev with
    | .ok b => b
    | .error _ => decide (pyStr fv < pyStr ev)

/-- DomainEngine._compare_greater_than (Python a > b is b < a for the
built-in types modelled here). -/
def compare_greater_than (fv ev : PyVal) : Bool :=
  if is_none fv || is_none ev then false
  else
    match pyLt ev fv with
    | .ok b => b
    | .error _ => decide (pyStr ev < pyStr fv)

/-- DomainEngine._compare_less_equal. -/
def compare_less_equal (fv ev : PyVal) : Bool :=
  compare_less_than fv ev || compare_equal fv ev

/-- DomainEngine._compare_greater_equal. -/
def compare_greater_equal (fv ev : PyVal) : Bool :=
  compare_greater_than fv ev || compare_equal fv ev

/-- DomainEngine._compare_in: a non-collection expectation degrades to
equality; a many2one dict field is reduced to its id before membership.
(Python set literals are not modelled; the collections reaching this
comparison are the list/tuple literals of domain expressions.) -/
def compare_in (fv ev : PyVal) : Bool :=
  let unwrap := fun (v : PyVal) =>
    match v with
    | .dict kvs =>
      match dget kvs "id" with
      | some i => i
      | Option.none => PyVal.dict kvs
    | other => other
  match ev with
  | .list ys => pyMem (unwrap fv) ys
  | .tuple ys => pyMem (unwrap fv) ys
  | _ => compare_equal fv ev

/-- The SQL-LIKE to regex rewriting shared by like/ilike. -/
def like_regex (p : String) : String :=
  strReplaceChar (strReplaceChar p '%' ".*") '_' "."

/-- DomainEngine._compare_like; the regex search may raise re.error for
patterns whose residual characters form an invalid regex. -/
def compare_like (env : PyStdlib) (fv p : PyVal) : Except Unit Bool :=
  if is_none fv || is_none p then .ok false
  else env.reSearch (like_regex (pyStr p)) (pyStr fv)

/-- DomainEngine._compare_ilike (both sides lowercased first). -/
def compare_ilike (env : PyStdlib) (fv p : PyVal) : Except Unit Bool :=
  if is_none fv || is_none p then .ok false
  else env.reSearch (like_regex (strLower (pyStr p))) (strLower (pyStr fv))

/-- The operator dispatch inside DomainEngine._evaluate_condition; the
result is an Except because the like/ilike regex may raise inside the
try block (an unsupported operator logs and returns False). -/
def compare_op (env : PyStdlib) (op : String) (fv ev : PyVal) : Except Unit Bool :=
  if op == "=" then .ok (compare_equal fv ev)
  else if op == "!=" then .ok (!compare_equal fv ev)
  else if op == "<" then .ok (compare_less_than fv ev)
  else if op == ">" then .ok (compare_greater_than fv ev)
  else if op == "<=" then .ok (compare_less_equal fv ev)
  else if op == ">=" then .ok (compare_greater_equal fv ev)
  else if op == "in" then .ok (compare_in fv ev)
  else if op == "not in" then .ok (!compare_in fv ev)
  else if op == "like" then compare_like env fv ev
  else if op == "ilike" then compare_ilike env fv ev
  else .ok false

/-- DomainEngine._evaluate_condition: the field value is fetched, the
operator dispatched, and any exception inside the try block is caught
and turned into the result False (fail safe). -/
def evaluate_condition (env : PyStdlib) (c : DomainCondition)
    (ctx : List (String × PyVal)) (uctx : Option (List (String × PyVal))) : Bool :=
  let fv := get_field_value c.field ctx uctx
  match compare_op env c.op fv c.value with
  | .ok b => b
  | .error _ => false

/-- DomainEngine._evaluate_group: implicit AND over the conditions
(an empty group is True). -/
def evaluate_group (env : PyStdlib) (g : DomainGroup)
    (ctx : List (String × PyVal)) (uctx : Option (List (String × PyVal))) : Bool :=
  g.conditions.all (fun c => evaluate_condition env c ctx uctx)

/-- The left-to-right operator fold of DomainEngine.evaluate
(| is OR, anything else is AND, matching the unknown-operator fallback). -/
def apply_ops : Bool → List String → List Bool → Bool
  | r, [], _ => r
  | r, _ :: _, [] => r
  | r, op :: ops, n :: ns =>
    apply_ops (if op == "|" then r || n else r && n) ops ns

/-- DomainEngine.evaluate: empty expressions are True before any check;
a truthy but invalid user context raises the context error; a parse
failure is wrapped; otherwise the groups are evaluated and folded. -/
def evaluate (env : PyStdlib) (expression : String) (ctx : List (String × PyVal))
    (uctx : Option (List (String × PyVal))) : Except DomainEvaluationError Bool :=
  if pyStripStr expression == "" then .ok true
  else if truthyCtx uctx
      && !(match uctx with
           | some u => validate_secure_user_context u
           | Option.none => false) then
    .error (.contextError "Invalid user context - must come from JWT claims")
  else
    match parse_expression env expression with
    | .error e => .error (.parseError ("Parse error: " ++ e.msg))
    | .ok ast =>
      match ast.groups with
      | [] => .ok true
      | g :: gs =>
        let r0 := evaluate_group env g ctx uctx
        let rs := gs.map (fun g2 => evaluate_group env g2 ctx uctx)
        if ast.operators.isEmpty then .ok r0
        else .ok (apply_ops r0 ast.operators rs)

/-- DomainEngine.safe_evaluate: a truthy but invalid user context yields
the caller default before evaluation; any evaluation error also yields
the default. -/
def safe_evaluate (env : PyStdlib) (expression : String) (ctx : List (String × PyVal))
    (default : Bool) (uctx : Option (List (String × PyVal))) : Bool :=
  if truthyCtx uctx
      && !(match uctx with
           | some u => validate_secure_user_context u
           | Option.none => false) then default
  else
    match evaluate env expression ctx uctx with
    | .ok b => b
    | .error _ => default

/-! ## Policy engine (backend/core/policy.py) -/

/-- The role object reachable as user.role (RoleName values are plain
strings; the admin role is the string admin). -/
structure RoleData where
  name : String

/-- The acting user as seen by PolicyEngine: the role object (None when
falsy) and the attribute map used by the getattr walks of
_resolve_domain_context. -/
structure PolicyUser where
  role : Option RoleData
  attrs : List (String × PyVal)

/-- A registered model class as the policy engine sees it:
the optional _role_permissions attribute maps a role name to its
permission dict (action / domain keys with Python values). -/
structure ModelCls where
  role_permissions : Option (List (String × List (String × PyVal)))

/-- registry.get_model. -/
def reg_get_model : List (String × ModelCls) → String → Option ModelCls
  | [], _ => Option.none
  | (n, m) :: rest, name => if n == name then some m else reg_get_model rest name

/-- Role-name lookup inside a _role_permissions dict. -/
def lookup_role : List (String × List (String × PyVal)) → String → Option (List (String × PyVal))
  | [], _ => Option.none
  | (r, e) :: rest, role => if r == role then some e else lookup_role rest role

/-- PolicyEngine.can_access_record restricted to context=None calls (the
shape of the recursive parent-model check): falsy user or role denies;
admin always allows; otherwise the model must exist, declare
_role_permissions, and its entry for the role must hold a truthy value
under the action (role_perms.get(action, False) is returned raw, hence
the PyVal result). -/
def can_access_no_ctx (reg : List (String × ModelCls)) (user : Option PolicyUser)
    (model_name action : String) : PyVal :=
  match user with
  | Option.none => .bool false
  | some u =>
    match u.role with
    | Option.none => .bool false
    | some r =>
      if r.name == "admin" then .bool true
      else
        match reg_get_model reg model_name with
        | Option.none => .bool false
        | some m =>
          match m.role_permissions with
          | Option.none => .bool false
          | some perms =>
            match lookup_role perms r.name with
            | some entry => (dget entry action).getD (.bool false)
            | Option.none => .bool false

/-- PolicyEngine.can_access_record with the many2one relation-resolution
carve-out: a read request flagged is_many2one_relation whose truthy
parent_model differs from the requested model and is readable by the
user is allowed before the registry is even consulted (the recursive
call passes context=None, embedded as can_access_no_ctx). -/
def can_access_record (reg : List (String × ModelCls)) (user : Option PolicyUser)
    (model_name action : String) (context : Option (List (String × PyVal))) : PyVal :=
  match user with
  | Option.none => .bool false
  | some u =>
    match u.role with
    | Option.none => .bool false
    | some r =>
      if r.name == "admin" then .bool true
      else
        let carve :=
          action == "read" && truthyCtx context &&
          (match context with
           | some c => pyTruthy ((dget c "is_many2one_relation").getD PyVal.none)
           | Option.none => false) &&
          (match context with
           | some c =>
             match (dget c "parent_model").getD PyVal.none with
             | .str pm =>
                 pm != "" && pm != model_name
                   && pyTruthy (can_access_no_ctx reg user pm "read")
             | _ => false
           | Option.none => false)
        if carve then .bool true
        else
          match reg_get_model reg model_name with
          | Option.none => .bool false
          | some m =>
            match m.role_permissions with
            | Option.none => .bool false
            | some perms =>
              match lookup_role perms r.name with
              | some entry => (dget entry action).getD (.bool false)
              | Option.none => .bool false

/-- The parts[1:] walk of PolicyEngine._resolve_domain_context: getattr
when the attribute exists, dict lookup otherwise, stopping at None. -/
def resolve_user_path : PyVal → List String → PyVal
  | .none, _ => PyVal.none
  | v, [] => v
  | v, p :: rest =>
    match v with
    | .obj attrs =>
      match dget attrs p with
      | some nv => resolve_user_path nv rest
      | Option.none => PyVal.none
    | .dict kvs => resolve_user_path ((dget kvs p).getD PyVal.none) rest
    | _ => PyVal.none
termination_by structural v parts => parts

/-- The per-criterion step of PolicyEngine._resolve_domain_context:
3-element tuples/lists whose value is a user.-prefixed string are
replaced by the resolved value (as a tuple) or dropped when resolution
yields None; other 3-element criteria pass through unchanged; anything
else is dropped as invalid. -/
def resolve_criterion (user : PyVal) (c : PyVal) : Option PyVal :=
  match c with
  | .tuple [f, o, .str s] =>
    if strStartsWithStr s "user." then
      match resolve_user_path user (strSplitChar s '.').tail with
      | .none => Option.none
      | rv => some (PyVal.tuple [f, o, rv])
    else some (PyVal.tuple [f, o, .str s])
  | .tuple [f, o, v] => some (PyVal.tuple [f, o, v])
  | .list [f, o, .str s] =>
    if strStartsWithStr s "user." then
      match resolve_user_path user (strSplitChar s '.').tail with
      | .none => Option.none
      | rv => some (PyVal.tuple [f, o, rv])
    else some (PyVal.list [f, o, .str s])
  | .list [f, o, v] => some (PyVal.list [f, o, v])
  | _ => Option.none

/-- PolicyEngine._resolve_domain_context over a whole domain list. -/
def resolve_domain_context (domain : List PyVal) (user : PyVal) : List PyVal :=
  domain.filterMap (resolve_criterion user)

/-- PolicyEngine.get_domain_filter: falsy user or role, an unknown
model, or a model without _role_permissions yields the empty filter;
otherwise the role entry's domain list is resolved against the acting
user.  (A domain value that is not a list/tuple would raise on
iteration in Python and is modelled as empty.) -/
def get_domain_filter (reg : List (String × ModelCls)) (user : Option PolicyUser)
    (model_name : String) : List PyVal :=
  match user with
  | Option.none => []
  | some u =>
    match u.role with
    | Option.none => []
    | some r =>
      match reg_get_model reg model_name with
      | Option.none => []
      | some m =>
        match m.role_permissions with
        | Option.none => []
        | some perms =>
          let entry := (lookup_role perms r.name).getD []
          let dom := match (dget entry "domain").getD (.list []) with
            | .list ds => ds
            | .tuple ds => ds
            | _ => []
          resolve_domain_context dom (.obj u.attrs)

/-! ## Record runtime (backend/core/base_model.py) -/

/-- Business-rule errors of the record runtime (UserError /
ValidationError from backend/core/exceptions.py). -/
inductive ModelError where
  | userError (msg : String)
  | validationError (msg : String)

/-- Junction-table state: relation table name to its (column1, column2)
rows, column1 holding the owning record id. -/
structure JunctionState where
  tables : List (String × List (Int × Int))

/-- Main-table state plus junction state; rows are kept as surviving ids
(field payloads are irrelevant to the deletion claims). -/
structure DBState where
  rows : List (String × List Int)
  junctions : JunctionState

/-- db.delete of one row (the junction tables are untouched, exactly as
in the source unlink paths). -/
def delete_row (st : DBState) (tbl : String) (rid : Int) : DBState :=
  ⟨st.rows.map (fun p => if p.1 == tbl then (p.1, p.2.filter (fun i => i != rid)) else p),
   st.junctions⟩

/-- BaseModel._cleanup_many2many_relationships: for every many2many
field of the class, delete from its relation table all rows whose
column1 equals the record id. -/
def cleanup_many2many_relationships (m2mTables : List String) (st : DBState) (rid : Int) : DBState :=
  ⟨st.rows,
   ⟨st.junctions.tables.map (fun p =>
      if m2mTables.contains p.1 then (p.1, p.2.filter (fun r => r.1 != rid)) else p)⟩⟩

/-- The rows of a junction table. -/
def junction_rows (st : DBState) (tbl : String) : List (Int × Int) :=
  match st.junctions.tables.find? (fun p => p.1 == tbl) with
  | some p => p.2
  | Option.none => []

/-- BaseModel.unlink: db.delete plus commit.  The storage effect of the
delete is SQLAlchemy behaviour, not repository code, so it is passed as
the oracle ormDelete (row-only deletion like delete_row, or any
secondary-relationship cascade the ORM may add); dbError is the
IntegrityError message the commit may raise.  The method body performs
no many2many cleanup of its own — _cleanup_many2many_relationships is
never called here — and translates a foreign-key message to a
UserError, any other IntegrityError to a ValidationError. -/
def base_model_unlink (st : DBState) (tbl : String) (rid : Int)
    (ormDelete : DBState → String → Int → DBState)
    (dbError : Option String) : Except ModelError DBState :=
  match dbError with
  | Option.none => .ok (ormDelete st tbl rid)
  | some msg =>
    if strContainsSub (strLower msg) "foreign key constraint" then
      .error (.userError "Cannot delete this record because it has related data that depends on it.")
    else .error (.validationError ("Database delete error: " ++ msg))

/-- A storage-layer exception that escapes to the caller untranslated. -/
inductive RawDBError where
  | integrityError (msg : String)

/-- Recordset.unlink: db.delete for each wrapped record and one commit,
with no relational cleanup of its own and no exception handling, so a
storage IntegrityError (oracle per record id) escapes raw. -/
def recordset_unlink (st : DBState) (tbl : String) (rids : List Int)
    (ormDelete : DBState → String → Int → DBState)
    (dbError : Int → Option String) : Except RawDBError DBState :=
  match rids with
  | [] => .ok st
  | rid :: rest =>
    match dbError rid with
    | some msg => .error (.integrityError msg)
    | Option.none => recordset_unlink (ormDelete st tbl rid) tbl rest ormDelete dbError

/-- A storage column as the uniqueness pre-check sees it: name, unique
flag, and the UI label used in the duplicate message. -/
structure ColumnSpec where
  name : String
  unique : Bool
  label : String

/-- The outcomes BaseModel.create can surface; rawIntegrityError is the
outcome the translation logic must never produce. -/
inductive CreateError where
  | userError (msg : String)
  | validationError (msg : String)
  | rawIntegrityError (msg : String)

/-- default_get merging: declared defaults fill only the keys absent
from the incoming values. -/
def merge_defaults (vals defaults : List (String × PyVal)) : List (String × PyVal) :=
  vals ++ defaults.filter (fun p => (dget vals p.1).isNone)

/-- Does some existing row hold this value in this column
(the db.query(...).filter(column == value).first() test; a row without
the column is an SQL null, never equal)? -/
def row_holds (db : List (List (String × PyVal))) (name : String) (v : PyVal) : Bool :=
  db.any (fun row =>
    match dget row name with
    | some w => pyEq w v
    | Option.none => false)

/-- The uniqueness pre-check of BaseModel.create: the first declared
unique column present in the data with a non-None value that an
existing row already holds (SQL equality). -/
def find_unique_conflict (cols : List ColumnSpec) (db : List (List (String × PyVal)))
    (data : List (String × PyVal)) : Option (ColumnSpec × PyVal) :=
  match cols with
  | [] => Option.none
  | c :: rest =>
    match (if c.unique then dget data c.name else Option.none) with
    | some v =>
      if !is_none v && row_holds db c.name v then some (c, v)
      else find_unique_conflict rest db data
    | Option.none => find_unique_conflict rest db data

/-- BaseModel.create, restricted to the scalar-column pipeline the
uniqueness claim is about (value parsing, computed-field recomputation,
relational sub-payloads and audit hooks do not affect it): defaults are
merged, the unique pre-check raises UserError before any insert is
attempted, and an IntegrityError raised by the storage layer during the
insert (the race oracle raceMsg) is translated — foreign-key messages
and unique-constraint messages to UserError, anything else to
ValidationError. -/
def create_record (cols : List ColumnSpec) (db : List (List (String × PyVal)))
    (vals defaults : List (String × PyVal)) (raceMsg : Option String) :
    Except CreateError (List (List (String × PyVal))) :=
  match find_unique_conflict cols db (merge_defaults vals defaults) with
  | some cv => .error (.userError ("The " ++ cv.1.label ++ " " ++ pyStr cv.2 ++ " already exists."))
  | Option.none =>
    match raceMsg with
    | Option.none => .ok (db ++ [merge_defaults vals defaults])
    | some msg =>
      if strContainsSub (strLower msg) "foreign key constraint" then
        if strContainsSub msg "violates foreign key constraint"
            && strContainsSub msg "is still referenced" then
          .error (.userError "Cannot delete this record because it has related data that depends on it. Please remove the related data first or contact your administrator.")
        else
          .error (.userError ("Cannot complete this operation due to data relationships. Details: " ++ msg))
      else if strContainsSub (strLower msg) "unique constraint" then
        .error (.userError ("A record with same key values already exists. Details: " ++ msg))
      else .error (.validationError ("Database error: " ++ msg))

/-- The AttributeError exception. -/
inductive PyAttrError where
  | attributeError (msg : String)

/-- Recordset.__getattr__ (invoked for names not defined on the
Recordset class): a singleton delegates to its record's attribute map
(getattr raising AttributeError when the record lacks the name), an
empty recordset returns None, and two or more records raise
AttributeError. -/
def recordset_getattr (records : List (List (String × PyVal))) (name : String) :
    Except PyAttrError PyVal :=
  match records with
  | [r] =>
    match dget r name with
    | some v => .ok v
    | Option.none => .error (.attributeError ("object has no attribute " ++ name))
  | [] => .ok PyVal.none
  | _ => .error (.attributeError "Multiple records in recordset, use ensure_one() or iterate.")

/-- Recordset.ensure_one: raises UserError when the cardinality is not
exactly one. -/
def ensure_one (records : List (List (String × PyVal))) : Except ModelError Unit :=
  if records.length != 1 then
    .error (.userError ("Expected singleton recordset, got " ++ toString records.length ++ " records."))
  else .ok ()

/-! ## Audit tracker (backend/core/audit_tracker.py) -/

/-- The external primitives the tracker calls, as oracles: display-name
resolution through the database (db.query(...).first() plus the
display_name/name fallbacks), datetime.fromisoformat (returning an
ordinal day and time-of-day), and float()/int() string parsing. -/
structure AuditOracle where
  fetchDisplay : String → PyVal → Option String
  fromIso : String → Option (Int × Int)
  floatParse : String → Option ℚ
  intParse : String → Option Int

/-- The selection-label scan of format_value_for_audit: the first
option pair whose key equals the value supplies the label. -/
def sel_lookup (opts : List PyVal) (v : PyVal) : String :=
  match opts with
  | [] => pyStr v
  | .list (k :: l :: _) :: rest => if pyEq k v then pyStr l else sel_lookup rest v
  | .tuple (k :: l :: _) :: rest => if pyEq k v then pyStr l else sel_lookup rest v
  | _ :: rest => sel_lookup rest v

/-- format_value_for_audit: None renders empty; many2one prefers
display_name/name; relational lists render a count; booleans Yes/No;
selections their label; datetime instances a formatted stamp (canonical
placeholder rendering here); everything else str().  The strings only
feed audit display columns; no claim depends on their exact shape. -/
def format_value_for_audit (value : PyVal) (field_type : String)
    (meta : List (String × PyVal)) : String :=
  match value with
  | .none => ""
  | v =>
    if field_type == "many2one" then
      match v with
      | .dict kvs =>
        match dget kvs "display_name" with
        | some dn => pyStr dn
        | Option.none =>
          match dget kvs "name" with
          | some n => pyStr n
          | Option.none => pyStr v
      | .obj attrs =>
        match dget attrs "display_name" with
        | some dn => pyStr dn
        | Option.none =>
          match dget attrs "name" with
          | some n => pyStr n
          | Option.none => pyStr v
      | _ => pyStr v
    else if field_type == "one2many" || field_type == "many2many" then
      match v with
      | .list xs => toString xs.length ++ " record(s)"
      | _ => pyStr v
    else if field_type == "boolean" then
      if pyTruthy v then "Yes" else "No"
    else if field_type == "selection" then
      match dget meta "selection" with
      | some (.list opts) => sel_lookup opts v
      | some (.dict kvs) =>
        match v with
        | .str s => (dget kvs s).map pyStr |>.getD (pyStr v)
        | _ => pyStr v
      | _ => pyStr v
    else if field_type == "date" || field_type == "datetime" then
      match v with
      | .datetime d t =>
        if field_type == "datetime" then "<stamp " ++ toString d ++ " " ++ toString t ++ ">"
        else "<stamp " ++ toString d ++ ">"
      | _ => pyStr v
    else pyStr v

/-- The many2one id normalization of process_field_change: ints (which
include Python bools) stand for themselves, objects and dicts
contribute their id attribute/key, anything else normalizes to None. -/
def m2o_norm (v : PyVal) : Option PyVal :=
  match v with
  | .none => Option.none
  | .int n => some (.int n)
  | .bool b => some (.bool b)
  | .obj attrs => dget attrs "id"
  | .dict kvs => dget kvs "id"
  | _ => Option.none

/-- Python == lifted to the optional normalized values (None == None is
true, None never equals a value). -/
def optPyEq : Option PyVal → Option PyVal → Bool
  | Option.none, Option.none => true
  | some x, some y => pyEq x y
  | _, _ => false

/-- One many2many element's contribution to the id set: ints (and
bools, which are ints) themselves, objects and dicts their id. -/
def m2m_item_id (item : PyVal) : Option PyVal :=
  match item with
  | .int n => some (.int n)
  | .bool b => some (.bool b)
  | .obj attrs => dget attrs "id"
  | .dict kvs => dget kvs "id"
  | _ => Option.none

/-- Set-insertion with Python equality (first occurrence kept). -/
def py_set_insert (xs : List PyVal) (x : PyVal) : List PyVal :=
  if pyMem x xs then xs else xs ++ [x]

/-- The many2many id-set normalization of process_field_change: lists
and tuples contribute the ids of their elements; a generic iterable
(dict keys, string characters) contributes only elements with an id
attribute, hence nothing for the embedded value forms; None and
non-iterables contribute nothing. -/
def m2m_ids (v : PyVal) : List PyVal :=
  match v with
  | .list xs => (xs.filterMap m2m_item_id).foldl py_set_insert []
  | .tuple xs => (xs.filterMap m2m_item_id).foldl py_set_insert []
  | _ => []

/-- Python set equality on id sets: mutual membership. -/
def idSetEq (a b : List PyVal) : Bool :=
  a.all (fun x => pyMem x b) && b.all (fun x => pyMem x a)

/-- The date/datetime normalization of process_field_change: datetime
and date instances stand for themselves; strings are cleaned
(Z to offset, T to space) and parsed — datetime fields via fromisoformat,
date fields via fromisoformat of the first whitespace token followed by
date(); parse failures and all other types normalize to None. -/
def dt_normalize (o : AuditOracle) (isDatetime : Bool) (v : PyVal) : Option PyVal :=
  match v with
  | .datetime d t => some (.datetime d t)
  | .date d => some (.date d)
  | .str s =>
    let clean := strReplaceChar (strReplaceChar s 'Z' "+00:00") 'T' " "
    if isDatetime then (o.fromIso clean).map (fun p => .datetime p.1 p.2)
    else
      match strFields clean with
      | tok :: _ => (o.fromIso tok).map (fun p => .date p.1)
      | [] => Option.none
  | _ => Option.none

/-- Python float() on an embedded value (strings via the oracle,
TypeError otherwise). -/
def py_float_of (o : AuditOracle) (v : PyVal) : Option ℚ :=
  match v with
  | .float q => some q
  | .int n => some (n : ℚ)
  | .bool b => some ((boolNum b : ℚ))
  | .str s => o.floatParse s
  | _ => Option.none

/-- Python int() on an embedded value (truncation toward zero on
floats, strings via the oracle, TypeError otherwise). -/
def py_int_of (o : AuditOracle) (v : PyVal) : Option Int :=
  match v with
  | .int n => some n
  | .bool b => some (boolNum b)
  | .float q => some (if 0 ≤ q then ⌊q⌋ else -⌊-q⌋)
  | .str s => o.intParse s
  | _ => Option.none

/-- The numeric normalization of process_field_change: None stays None;
a successful float()/int() conversion supplies the normalized number; a
ValueError/TypeError leaves the original value as its own normal
form. -/
def num_normalize (o : AuditOracle) (isFloat : Bool) (v : PyVal) : Option PyVal :=
  match v with
  | .none => Option.none
  | v =>
    if isFloat then
      match py_float_of o v with
      | some q => some (.float q)
      | Option.none => some v
    else
      match py_int_of o v with
      | some n => some (.int n)
      | Option.none => some v

/-- Display names for a list of many2many ids (record-name fetch via
the oracle, falling back to the ID n rendering). -/
def m2m_names (o : AuditOracle) (comodel : Option String) (ids : List PyVal) : List String :=
  ids.map (fun i =>
    match comodel with
    | some cm =>
      match o.fetchDisplay cm i with
      | some nm => nm
      | Option.none => "ID " ++ pyStr i
    | Option.none => "ID " ++ pyStr i)

/-- One per-field change record as collected by track_field_changes. -/
structure ChangeInfo where
  field_name : String
  field_label : String
  field_type : String
  old_value : String
  new_value : String

/-- process_field_change: per-type normalize-and-compare; equal
normalized values yield no change record (None), otherwise the display
strings are produced.  Many2one compares normalized ids, many2many
compares id sets, date/datetime and numeric fields compare parsed
values, every other type compares the formatted strings. -/
def process_field_change (o : AuditOracle) (field_name field_label field_type : String)
    (meta : List (String × PyVal)) (old_value new_value : PyVal) : Option ChangeInfo :=
  if field_type == "many2one" then
    let oldId := m2o_norm old_value
    let newId := m2o_norm new_value
    if optPyEq oldId newId then Option.none
    else
      let oldDisp := format_value_for_audit old_value field_type meta
      let newDisp :=
        match newId with
        | Option.none => ""
        | some i =>
          match dget meta "relation" with
          | some (.str cm) =>
            match o.fetchDisplay cm i with
            | some nm => nm
            | Option.none => pyStr i
          | _ => pyStr i
      some ⟨field_name, field_label, field_type, oldDisp, newDisp⟩
  else if field_type == "many2many" then
    let oldIds := m2m_ids old_value
    let newIds := m2m_ids new_value
    if idSetEq oldIds newIds then Option.none
    else
      let addedIds := newIds.filter (fun i => !pyMem i oldIds)
      let removedIds := oldIds.filter (fun i => !pyMem i newIds)
      let comodel := match dget meta "relation" with
        | some (.str cm) => some cm
        | _ => Option.none
      let changes :=
        (if removedIds.isEmpty then []
         else ["Removed: " ++ String.intercalate ", " (m2m_names o comodel removedIds)])
        ++
        (if addedIds.isEmpty then []
         else ["Added: " ++ String.intercalate ", " (m2m_names o comodel addedIds)])
      some ⟨field_name, field_label, field_type, "", String.intercalate "\n" changes⟩
  else if field_type == "datetime" || field_type == "date" then
    let oldN := dt_normalize o (field_type == "datetime") old_value
    let newN := dt_normalize o (field_type == "datetime") new_value
    if optPyEq oldN newN then Option.none
    else
      some ⟨field_name, field_label, field_type,
            format_value_for_audit (oldN.getD old_value) field_type meta,
            format_value_for_audit (newN.getD new_value) field_type meta⟩
  else if field_type == "float" || field_type == "integer" then
    let oldN := num_normalize o (field_type == "float") old_value
    let newN := num_normalize o (field_type == "float") new_value
    if optPyEq oldN newN then Option.none
    else
      some ⟨field_name, field_label, field_type,
            format_value_for_audit (oldN.getD old_value) field_type meta,
            format_value_for_audit (newN.getD new_value) field_type meta⟩
  else
    let oldDisp := format_value_for_audit old_value field_type meta
    let newDisp := format_value_for_audit new_value field_type meta
    if oldDisp == newDisp then Option.none
    else some ⟨field_name, field_label, field_type, oldDisp, newDisp⟩

/-- The audit entry shapes of track_field_changes: the legacy
single-field shape and the grouped multi-field shape. -/
inductive AuditEntry where
  | single (c : ChangeInfo)
  | grouped (cs : List ChangeInfo)

/-- field_meta.get with the char default of track_field_changes. -/
def meta_type (meta : List (String × PyVal)) : String :=
  match dget meta "type" with
  | some (.str t) => t
  | _ => "char"

/-- field_meta.get with the field-name default of track_field_changes. -/
def meta_label (field_name : String) (meta : List (String × PyVal)) : String :=
  match dget meta "label" with
  | some (.str l) => l
  | _ => field_name

/-- The per-field diff step inside track_field_changes: a tracked field
is diffed only when the write payload mentions it, with the old value
defaulting to None. -/
def track_one_field (o : AuditOracle) (old_values new_values : List (String × PyVal))
    (fm : String × List (String × PyVal)) : Option ChangeInfo :=
  if (dget new_values fm.1).isSome then
    process_field_change o fm.1 (meta_label fm.1 fm.2) (meta_type fm.2) fm.2
      ((dget old_values fm.1).getD PyVal.none) ((dget new_values fm.1).getD PyVal.none)
  else Option.none

/-- track_field_changes: each tracked field mentioned in the write
payload is diffed via process_field_change; no collected change means
no audit entry, one change the legacy single-field shape, several the
grouped shape. -/
def track_field_changes (o : AuditOracle)
    (tracked : List (String × List (String × PyVal)))
    (old_values new_values : List (String × PyVal)) : Option AuditEntry :=
  match tracked.filterMap (track_one_field o old_values new_values) with
  | [] => Option.none
  | [c] => some (.single c)
  | cs => some (.grouped cs)

/-- The normalized-equality relation the spec describes for the audit
diff, stated as its own definition (per-type: many2one by id,
many2many by id set, date/datetime and numeric by parsed value, every
other type by formatted string). -/
def audit_norm_eq (o : AuditOracle) (field_type : String)
    (meta : List (String × PyVal)) (old_value new_value : PyVal) : Bool :=
  if field_type == "many2one" then optPyEq (m2o_norm old_value) (m2o_norm new_value)
  else if field_type == "many2many" then idSetEq (m2m_ids old_value) (m2m_ids new_value)
  else if field_type == "datetime" || field_type == "date" then
    optPyEq (dt_normalize o (field_type == "datetime") old_value)
            (dt_normalize o (field_type == "datetime") new_value)
  else if field_type == "float" || field_type == "integer" then
    optPyEq (num_normalize o (field_type == "float") old_value)
            (num_normalize o (field_type == "float") new_value)
  else
    format_value_for_audit old_value field_type meta
      == format_value_for_audit new_value field_type meta

/-! ## Spec-side characterisations and concrete fixtures -/

/-- The empty-value class exactly as the spec states it: None, boolean
False, the empty or whitespace-only string, an empty list/tuple/dict,
numeric zero, or a many-to-one dict whose id is None or (Python-)equal
to 0 or the empty string; everything else is non-empty. -/
def spec_empty_value (v : PyVal) : Bool :=
  match v with
  | .none => true
  | .bool b => !b
  | .str s => pyStripStr s == ""
  | .list xs => xs.isEmpty
  | .tuple xs => xs.isEmpty
  | .dict kvs =>
      kvs.isEmpty ||
      (match dget kvs "id" with
       | some i => is_none i || pyEq i (PyVal.int 0) || pyEq i (PyVal.str "")
       | Option.none => false)
  | .int n => n == 0
  | .float q => q == 0
  | _ => false

/-- A well-formed condition triple in the sense of the parser: a list or
tuple of exactly (string field, supported operator, value). -/
def wf_triple : PyVal → Bool
  | .list [.str _, .str o, _] => SUPPORTED_OPERATORS.contains o
  | .tuple [.str _, .str o, _] => SUPPORTED_OPERATORS.contains o
  | _ => false

/-- A top-level parsed element the parser can accept: a logical operator
token, a well-formed triple, or a group list all of whose members are
well-formed triples. -/
def acceptable_element (e : PyVal) : Bool :=
  is_logical_op e || wf_triple e ||
  (match e with
   | .list xs => xs.all wf_triple
   | _ => false)

/-- A concrete domain expression used by the counterexamples/witnesses. -/
def fixture_expr : String := "[(\"a\", \"=\", 1)]"

/-- A stdlib oracle matching the real literal_eval on fixture_expr, with
a regex engine that never errors. -/
def fixture_env : PyStdlib :=
  { litEval := fun s =>
      if s == fixture_expr then .ok (.list [.tuple [.str "a", .str "=", .int 1]])
      else .error ()
  , reSearch := fun _ _ => .ok false }

/-- A stdlib oracle whose regex engine raises re.error on every search,
standing for an invalid compiled like-pattern. -/
def fixture_env_re_err : PyStdlib :=
  { litEval := fun _ => .error ()
  , reSearch := fun _ _ => .error () }

/-- A stdlib oracle matching the real literal_eval on the string [5]
(a list holding the bare integer 5, not a condition triple). -/
def fixture_env_bad_item : PyStdlib :=
  { litEval := fun s => if s == "[5]" then .ok (.list [.int 5]) else .error ()
  , reSearch := fun _ _ => .ok false }

/-- A permission entry with read allowed and write denied. -/
def fixture_entry_dispatcher : List (String × PyVal) :=
  [("read", PyVal.bool true), ("write", PyVal.bool false)]

/-- A permission entry with read and write allowed, plus a domain rule
referencing the acting user. -/
def fixture_entry_manager : List (String × PyVal) :=
  [("read", PyVal.bool true), ("write", PyVal.bool true),
   ("domain", PyVal.list [PyVal.tuple [PyVal.str "driver_id", PyVal.str "=", PyVal.str "user.id"],
                          PyVal.str "junk",
                          PyVal.tuple [PyVal.str "status", PyVal.str "=", PyVal.str "active"]])]

/-- A registry with one model named m carrying both role entries. -/
def fixture_reg : List (String × ModelCls) :=
  [("m", ⟨some [("dispatcher", fixture_entry_dispatcher),
                ("fleet_manager", fixture_entry_manager)]⟩)]

/-- Users for the policy fixtures. -/
def fixture_admin : PolicyUser := ⟨some ⟨"admin"⟩, []⟩

def fixture_dispatcher : PolicyUser := ⟨some ⟨"dispatcher"⟩, []⟩

def fixture_manager : PolicyUser := ⟨some ⟨"fleet_manager"⟩, [("id", PyVal.int 7)]⟩

/-- The deletion fixture: table vehicle holds record 1, which owns the
junction row (1, 7) in vehicle_driver_rel. -/
def fixture_db : DBState :=
  ⟨[("vehicle", [1])], ⟨[("vehicle_driver_rel", [(1, 7)])]⟩⟩

/-- The uniqueness fixture: one unique column named plate. -/
def fixture_cols : List ColumnSpec := [⟨"plate", true, "License Plate"⟩]

/-- An existing row already holding plate X1. -/
def fixture_existing : List (List (String × PyVal)) := [[("plate", PyVal.str "X1")]]

/-- An audit oracle with no resolvable display names or parses. -/
def fixture_audit : AuditOracle :=
  ⟨fun _ _ => Option.none, fun _ => Option.none, fun _ => Option.none, fun _ => Option.none⟩

/-! ## Theorems -/

/-- C2: evaluating the condition (field, =, False) through the engine
returns true exactly on the empty class the spec describes — None,
boolean False, the empty or whitespace-only string, an empty
list/tuple/dict, numeric zero, or a many-to-one dict whose id is
None or Python-equal to 0 or the empty string — and false on every
other value, for every stdlib oracle and user context. -/
theorem eq_false_matches_empty_convention (env : PyStdlib)
    (uctx : Option (List (String × PyVal))) (v : PyVal) :
    evaluate_condition env ⟨"f", "=", PyVal.bool false⟩ [("f", v)] uctx
      = spec_empty_value v := by
  have hfv : get_field_value "f" [("f", v)] uctx = v := by cases v <;> rfl
  show (match compare_op env "=" (get_field_value "f" [("f", v)] uctx) (PyVal.bool false) with
        | .ok b => b
        | .error _ => false) = spec_empty_value v
  rw [hfv]
  show is_empty_value v = spec_empty_value v
  cases v with
  | dict kvs => cases h : kvs.isEmpty <;> simp [is_empty_value, spec_empty_value, h]
  | _ => rfl

/-- C10: Recordset attribute access for names not defined on the class
is cardinality-dependent: a singleton returns its record's attribute,
the empty recordset returns None for every name, two or more records
raise AttributeError; ensure_one raises UserError exactly when the
cardinality is not one. -/
theorem recordset_getattr_by_cardinality
    (r : List (String × PyVal)) (records : List (List (String × PyVal)))
    (name : String) (v : PyVal) :
    recordset_getattr [] name = .ok PyVal.none
    ∧ (dget r name = some v → recordset_getattr [r] name = .ok v)
    ∧ (2 ≤ records.length →
        ∃ m, recordset_getattr records name = .error (.attributeError m))
    ∧ (records.length ≠ 1 → ∃ m, ensure_one records = .error (.userError m))
    ∧ ensure_one [r] = .ok () := by
  refine ⟨rfl, ?_, ?_, ?_, rfl⟩
  · intro h; simp [recordset_getattr, h]
  · intro h
    cases records with
    | nil => simp at h
    | cons a t =>
      cases t with
      | nil => simp at h
      | cons b rest => exact ⟨_, rfl⟩
  · intro h
    simp [ensure_one, h]

/-- C10 witness: concrete singleton, two-record and empty recordsets. -/
theorem recordset_getattr_by_cardinality_witness :
    recordset_getattr [[("name", PyVal.str "X")]] "name" = .ok (PyVal.str "X")
    ∧ (∃ m, recordset_getattr [[("name", PyVal.str "X")], [("name", PyVal.str "Y")]] "name"
          = .error (.attributeError m))
    ∧ (∃ m, ensure_one ([] : List (List (String × PyVal))) = .error (.userError m)) := by
  refine ⟨?_, ?_, ?_⟩
  · exact (recordset_getattr_by_cardinality [("name", PyVal.str "X")] [] "name"
      (PyVal.str "X")).2.1 rfl
  · exact (recordset_getattr_by_cardinality [] [[("name", PyVal.str "X")], [("name", PyVal.str "Y")]]
      "name" PyVal.none).2.2.1 (by decide)
  · exact (recordset_getattr_by_cardinality [] [] "name" PyVal.none).2.2.2.1 (by decide)

/-- C3: evaluation at the failing input (record 1 of table vehicle
owning junction row (1, 7) of vehicle_driver_rel).  Neither unlink path
performs the junction cleanup itself: the single-record unlink returns
exactly the bare storage delete for EVERY storage behaviour
(demonstrated below universally over the ormDelete oracle), so under
the plain row delete the orphaned junction row (1, 7) survives, while
the never-invoked cleanup helper would have removed it.  The Recordset
unlink path — the one the delete API uses — lets a foreign-key
IntegrityError escape raw; only the single-record path translates it to
a UserError. -/
theorem unlink_behaviour_at_m2m_fixture :
    (∀ ormDelete, base_model_unlink fixture_db "vehicle" 1 ormDelete Option.none
      = .ok (ormDelete fixture_db "vehicle" 1))
    ∧ base_model_unlink fixture_db "vehicle" 1 delete_row Option.none
      = .ok ⟨[("vehicle", [])], ⟨[("vehicle_driver_rel", [(1, 7)])]⟩⟩
    ∧ junction_rows (cleanup_many2many_relationships ["vehicle_driver_rel"] fixture_db 1)
        "vehicle_driver_rel" = []
    ∧ recordset_unlink fixture_db "vehicle" [1] delete_row
        (fun _ => some "update or delete on table vehicle violates foreign key constraint")
      = .error (.integrityError "update or delete on table vehicle violates foreign key constraint")
    ∧ base_model_unlink fixture_db "vehicle" 1 delete_row
        (some "update or delete on table vehicle violates foreign key constraint")
      = .error (.userError "Cannot delete this record because it has related data that depends on it.") := by
  exact ⟨fun ormDelete => rfl, rfl, rfl, rfl, rfl⟩

/-- C1 counterexample: the empty dict is a user context lacking the jwt
provenance tag, yet safe_evaluate skips validation entirely (the
context is falsy), evaluates the expression against it, and returns
true instead of the caller-supplied default false. -/
theorem safe_evaluate_empty_context_counterexample :
    validate_secure_user_context [] = false
    ∧ safe_evaluate fixture_env fixture_expr [("a", PyVal.int 1)] false (some []) = true := by
  exact ⟨rfl, by decide⟩

/-- C1 (amended): for every NON-empty user context that fails secure
validation — in particular one whose _source entry is not the string
jwt, or missing one of the id/email/role keys, or holding a role value
that is not a dict — safe_evaluate returns the caller default, and does
so uniformly in the expression, record context and stdlib behaviour
(so the expression is never evaluated against the unverified
context). -/
theorem safe_evaluate_invalid_context_returns_default
    (env : PyStdlib) (expr : String) (ctx : List (String × PyVal)) (d : Bool)
    (u : List (String × PyVal)) :
    (u ≠ [] → validate_secure_user_context u = false →
       safe_evaluate env expr ctx d (some u) = d)
    ∧ ((match dget u "_source" with
        | some (.str s) => s == "jwt"
        | _ => false) = false → validate_secure_user_context u = false)
    ∧ (dget u "id" = Option.none → validate_secure_user_context u = false)
    ∧ (dget u "email" = Option.none → validate_secure_user_context u = false)
    ∧ (dget u "role" = Option.none → validate_secure_user_context u = false)
    ∧ (∀ rv, dget u "role" = some rv → (∀ kvs, rv ≠ PyVal.dict kvs) →
        validate_secure_user_context u = false) := by
  refine ⟨?_, ?_, ?_, ?_, ?_, ?_⟩
  · intro hne hbad
    cases u with
    | nil => exact absurd rfl hne
    | cons a rest => simp [safe_evaluate, truthyCtx, hbad]
  · intro h
    unfold validate_secure_user_context
    simp [h]
  · intro h
    unfold validate_secure_user_context
    split_ifs <;> simp_all
  · intro h
    unfold validate_secure_user_context
    split_ifs <;> simp_all
  · intro h
    unfold validate_secure_user_context
    split_ifs <;> simp_all
  · intro rv hrv hnd
    unfold validate_secure_user_context
    split_ifs <;> simp_all

/-- C6: evaluation of a single condition is total and fail-closed — an
error raised inside the condition comparison makes that condition
false; a failing condition is combined with (not replacing) the
remaining conditions of its group; and whole-expression evaluation can
only fail with the context error or a wrapped parse error (the generic
evaluation-error wrapper is never produced), which are exactly the
cases safe_evaluate turns into the caller default. -/
theorem condition_failures_are_contained (env : PyStdlib) (c : DomainCondition)
    (cs : List DomainCondition) (ctx : List (String × PyVal))
    (uctx : Option (List (String × PyVal))) (expr : String) :
    (∀ e, compare_op env c.op (get_field_value c.field ctx uctx) c.value = .error e →
       evaluate_condition env c ctx uctx = false)
    ∧ evaluate_group env ⟨c :: cs⟩ ctx uctx
        = (evaluate_condition env c ctx uctx && evaluate_group env ⟨cs⟩ ctx uctx)
    ∧ (∀ err, evaluate env expr ctx uctx = .error err →
        (∃ m, err = DomainEvaluationError.contextError m)
        ∨ (∃ m, err = DomainEvaluationError.parseError m)) := by
  refine ⟨?_, ?_, ?_⟩
  · intro e h
    show (match compare_op env c.op (get_field_value c.field ctx uctx) c.value with
          | Except.ok b => b
          | Except.error _ => false) = false
    rw [h]
  · simp [evaluate_group, List.all_cons]
  · intro err h
    unfold evaluate at h
    split at h
    · simp at h
    · split at h
      · injection h with h2
        exact Or.inl ⟨_, h2.symm⟩
      · split at h
        · injection h with h2
          exact Or.inr ⟨_, h2.symm⟩
        · split at h
          · simp at h
          · split at h <;> simp at h

/-- C6 witness: an invalid like-pattern raising re.error inside the
comparison yields the condition result false. -/
theorem condition_failures_are_contained_witness :
    evaluate_condition fixture_env_re_err ⟨"f", "like", PyVal.str "("⟩
      [("f", PyVal.str "x")] Option.none = false :=
  (condition_failures_are_contained fixture_env_re_err ⟨"f", "like", PyVal.str "("⟩ []
    [("f", PyVal.str "x")] Option.none "").1 () rfl

/-- The triple check does not depend on the list/tuple packaging. -/
lemma wf_triple_list_eq_tuple (f o v : PyVal) :
    wf_triple (PyVal.list [f, o, v]) = wf_triple (PyVal.tuple [f, o, v]) := by
  cases f <;> cases o <;> rfl

/-- A triple failing the well-formedness check fails
parse_condition_triple. -/
lemma parse_triple_err (f o v : PyVal)
    (h : wf_triple (PyVal.tuple [f, o, v]) = false) :
    ∃ err, parse_condition_triple f o v = Except.error err := by
  unfold parse_condition_triple
  split
  · split
    · next fs os =>
      rw [if_neg]
      · exact ⟨_, rfl⟩
      · simp [wf_triple] at h
        simp [h]
    · exact ⟨_, rfl⟩
  · exact ⟨_, rfl⟩

/-- An element failing the well-formedness check fails
parse_condition_item. -/
lemma parse_item_err (x : PyVal) (h : wf_triple x = false) :
    ∃ err, parse_condition_item x = Except.error err := by
  unfold parse_condition_item
  split
  · next f o v => exact parse_triple_err f o v (by rw [← wf_triple_list_eq_tuple]; exact h)
  · next f o v => exact parse_triple_err f o v h
  · exact ⟨_, rfl⟩

/-- A group containing a malformed triple fails the condition loop. -/
lemma parse_simple_err (items : List PyVal)
    (h : ∃ e ∈ items, wf_triple e = false) :
    ∃ err, parse_simple_items items = Except.error err := by
  induction items with
  | nil =>
    rcases h with ⟨e, he, _⟩
    exact absurd he (List.not_mem_nil e)
  | cons a rest ih =>
    rcases h with ⟨e, he, hbad⟩
    rcases List.mem_cons.mp he with rfl | hmem
    · rcases parse_item_err e hbad with ⟨err, herr⟩
      exact ⟨err, by simp [parse_simple_items, herr]⟩
    · cases ha : parse_condition_item a with
      | error err => exact ⟨err, by simp [parse_simple_items, ha]⟩
      | ok c =>
        rcases ih ⟨e, hmem, hbad⟩ with ⟨err, herr⟩
        exact ⟨err, by simp [parse_simple_items, ha, herr]⟩

/-- A complex-format element list containing an unacceptable element
fails the complex parser. -/
lemma parse_complex_err (items : List PyVal)
    (h : ∃ e ∈ items, acceptable_element e = false) :
    ∃ err, parse_complex_items items = Except.error err := by
  induction items with
  | nil =>
    rcases h with ⟨e, he, _⟩
    exact absurd he (List.not_mem_nil e)
  | cons a rest ih =>
    rcases h with ⟨e, he, hbad⟩
    rcases List.mem_cons.mp he with rfl | hmem
    · -- the head itself is unacceptable
      simp only [acceptable_element, Bool.or_eq_false_iff] at hbad
      obtain ⟨⟨hop, hwf⟩, hgrp⟩ := hbad
      cases e with
      | str s =>
        have : (s == "&" || s == "|") = false := by
          simpa [is_logical_op] using hop
        exact ⟨⟨"Invalid item in complex expression"⟩, by simp [parse_complex_items, this]⟩
      | list xs =>
        have : ∃ x ∈ xs, wf_triple x = false := by
          rcases List.all_eq_false.mp (by simpa using hgrp) with ⟨x, hx, hxf⟩
          exact ⟨x, hx, by simpa using hxf⟩
        rcases parse_simple_err xs this with ⟨err, herr⟩
        exact ⟨err, by simp [parse_complex_items, herr]⟩
      | tuple xs =>
        match xs with
        | [] => exact ⟨_, rfl⟩
        | [a] => exact ⟨_, rfl⟩
        | [a, b] => exact ⟨_, rfl⟩
        | [f, o, v] =>
          rcases parse_triple_err f o v hwf with ⟨err, herr⟩
          exact ⟨err, by simp [parse_complex_items, herr]⟩
        | a :: b :: c :: d :: rest2 => exact ⟨_, rfl⟩
      | none => exact ⟨_, rfl⟩
      | bool b => exact ⟨_, rfl⟩
      | int n => exact ⟨_, rfl⟩
      | float q => exact ⟨_, rfl⟩
      | dict kvs => exact ⟨_, rfl⟩
      | obj attrs => exact ⟨_, rfl⟩
      | date d => exact ⟨_, rfl⟩
      | datetime d t => exact ⟨_, rfl⟩
    · -- the unacceptable element sits in the tail
      have htail := ih ⟨e, hmem, hbad⟩
      rcases htail with ⟨err, herr⟩
      cases a with
      | str s =>
        cases hc : (s == "&" || s == "|") with
        | false => exact ⟨⟨"Invalid item in complex expression"⟩, by simp [parse_complex_items, hc]⟩
        | true => exact ⟨err, by simp [parse_complex_items, hc, herr]⟩
      | list xs =>
        cases hxs : parse_simple_items xs with
        | error e2 => exact ⟨e2, by simp [parse_complex_items, hxs]⟩
        | ok conds => exact ⟨err, by simp [parse_complex_items, hxs, herr]⟩
      | tuple xs =>
        match xs with
        | [] => exact ⟨_, rfl⟩
        | [a] => exact ⟨_, rfl⟩
        | [a, b] => exact ⟨_, rfl⟩
        | [f, o, v] =>
          cases ht : parse_condition_triple f o v with
          | error e2 => exact ⟨e2, by simp [parse_complex_items, ht]⟩
          | ok c => exact ⟨err, by simp [parse_complex_items, ht, herr]⟩
        | a :: b :: c :: d :: rest2 => exact ⟨_, rfl⟩
      | none => exact ⟨_, rfl⟩
      | bool b => exact ⟨_, rfl⟩
      | int n => exact ⟨_, rfl⟩
      | float q => exact ⟨_, rfl⟩
      | dict kvs => exact ⟨_, rfl⟩
      | obj attrs => exact ⟨_, rfl⟩
      | date d => exact ⟨_, rfl⟩
      | datetime d t => exact ⟨_, rfl⟩

/-- A successfully parsed triple carries a supported operator. -/
lemma parse_triple_ok_supported (f o v : PyVal) (c : DomainCondition)
    (h : parse_condition_triple f o v = Except.ok c) :
    SUPPORTED_OPERATORS.contains c.op = true := by
  unfold parse_condition_triple at h
  split at h
  · split at h
    · split_ifs at h with hc
      · injection h with h2
        subst h2
        exact hc
    · simp at h
  · simp at h

/-- A successfully parsed condition item carries a supported operator. -/
lemma parse_item_ok_supported (x : PyVal) (c : DomainCondition)
    (h : parse_condition_item x = Except.ok c) :
    SUPPORTED_OPERATORS.contains c.op = true := by
  unfold parse_condition_item at h
  split at h
  · exact parse_triple_ok_supported _ _ _ _ h
  · exact parse_triple_ok_supported _ _ _ _ h
  · simp at h

/-- Every condition a successful condition loop produces carries a
supported operator. -/
lemma parse_simple_ok_supported (items : List PyVal) (conds : List DomainCondition)
    (h : parse_simple_items items = Except.ok conds) :
    ∀ c ∈ conds, SUPPORTED_OPERATORS.contains c.op = true := by
  induction items generalizing conds with
  | nil =>
    injection h with h2
    subst h2
    intro c hc
    exact absurd hc (List.not_mem_nil c)
  | cons a rest ih =>
    unfold parse_simple_items at h
    split at h
    · simp at h
    · next c1 ha =>
      split at h
      · simp at h
      · next cs1 hrest =>
        injection h with h2
        subst h2
        intro c hc
        rcases List.mem_cons.mp hc with rfl | hm
        · exact parse_item_ok_supported _ _ ha
        · exact ih cs1 hrest c hm

/-- Every condition a successful complex parse produces carries a
supported operator. -/
lemma parse_complex_ok_supported (items : List PyVal) (gs : List DomainGroup)
    (ops : List String) (h : parse_complex_items items = Except.ok (gs, ops)) :
    ∀ g ∈ gs, ∀ c ∈ g.conditions, SUPPORTED_OPERATORS.contains c.op = true := by
  induction items generalizing gs ops with
  | nil =>
    injection h with h2
    rw [Prod.mk.injEq] at h2
    obtain ⟨h3, _⟩ := h2
    subst h3
    intro g hg
    exact absurd hg (List.not_mem_nil g)
  | cons a rest ih =>
    unfold parse_complex_items at h
    split at h
    · split_ifs at h
      split at h
      · simp at h
      · next gs1 ops1 hrest =>
        injection h with h2
        rw [Prod.mk.injEq] at h2
        obtain ⟨h3, _⟩ := h2
        subst h3
        exact ih gs1 ops1 hrest
    · split at h
      · simp at h
      · next conds hconds =>
        split at h
        · simp at h
        · next gs1 ops1 hrest =>
          injection h with h2
          rw [Prod.mk.injEq] at h2
          obtain ⟨h3, _⟩ := h2
          subst h3
          intro g hg
          rcases List.mem_cons.mp hg with rfl | hm
          · exact parse_simple_ok_supported _ _ hconds
          · exact ih gs1 ops1 hrest g hm
    · split at h
      · simp at h
      · next c1 htrip =>
        split at h
        · simp at h
        · next gs1 ops1 hrest =>
          injection h with h2
          rw [Prod.mk.injEq] at h2
          obtain ⟨h3, _⟩ := h2
          subst h3
          intro g hg
          rcases List.mem_cons.mp hg with rfl | hm
          · intro c hc
            rcases List.mem_cons.mp hc with rfl | hm2
            · exact parse_triple_ok_supported _ _ _ _ htrip
            · exact absurd hm2 (List.not_mem_nil c)
          · exact ih gs1 ops1 hrest g hm
    · simp at h

/-- C7: parse_expression surfaces only DomainParseError (its result
type), any parsed top-level element that is neither a recognized
logical operator token nor a well-formed 3-tuple (string field,
supported operator, value) nor a group list of well-formed 3-tuples
makes it fail with a DomainParseError, and every AST it does return
contains only supported operators. -/
theorem parse_rejects_malformed_elements (env : PyStdlib) (expr : String)
    (items : List PyVal) :
    (pyStripStr expr ≠ "" →
     env.litEval (pyStripStr expr) = .ok (.list items) →
     (∃ e ∈ items, acceptable_element e = false) →
     ∃ err, parse_expression env expr = .error err)
    ∧ (∀ ast, parse_expression env expr = .ok ast →
        ∀ g ∈ ast.groups, ∀ c ∈ g.conditions,
          SUPPORTED_OPERATORS.contains c.op = true) := by
  constructor
  · intro hne hlit hbad
    unfold parse_expression
    rw [if_neg (by simpa using hne)]
    by_cases hbr : (strStartsWithChar (pyStripStr expr) (Char.ofNat 91)
        && strEndsWithChar (pyStripStr expr) (Char.ofNat 93)) = true
    · rw [hbr]
      simp only [Bool.not_true, Bool.false_eq_true, if_false, hlit]
      by_cases hn : ((items.any fun i =>
          match i with
          | PyVal.list _ => true
          | _ => false) || items.any is_logical_op) = true
      · rw [hn]
        simp only [if_true]
        have : ∃ e ∈ items, acceptable_element e = false := hbad
        rcases parse_complex_err items this with ⟨err, herr⟩
        rw [herr]
        exact ⟨err, rfl⟩
      · rw [Bool.not_eq_true] at hn
        rw [hn]
        simp only [Bool.false_eq_true, if_false]
        have : ∃ e ∈ items, wf_triple e = false := by
          rcases hbad with ⟨e, he, hb⟩
          simp only [acceptable_element, Bool.or_eq_false_iff] at hb
          exact ⟨e, he, hb.1.2⟩
        rcases parse_simple_err items this with ⟨err, herr⟩
        rw [herr]
        exact ⟨err, rfl⟩
    · rw [Bool.not_eq_true] at hbr
      rw [hbr]
      exact ⟨_, rfl⟩
  · intro ast h g hg c hc
    unfold parse_expression at h
    split_ifs at h with h1
    · injection h with h2
      subst h2
      exact absurd hg (List.not_mem_nil g)
    · split at h
      · simp at h
      · split at h
        · split at h
          · split at h
            · simp at h
            · next gs1 ops1 hcx =>
              split_ifs at h
              injection h with h2
              subst h2
              exact parse_complex_ok_supported _ _ _ hcx g hg c hc
          · split at h
            · simp at h
            · next conds hsimple =>
              injection h with h2
              subst h2
              rcases List.mem_cons.mp hg with rfl | hm
              · exact parse_simple_ok_supported _ _ hsimple c hc
              · exact absurd hm (List.not_mem_nil g)
        · simp at h

/-- C7 witness: the element 5 of the parsed list [5] is neither an
operator token nor a triple, and parsing fails. -/
theorem parse_rejects_malformed_elements_witness :
    ∃ err, parse_expression fixture_env_bad_item "[5]" = .error err :=
  (parse_rejects_malformed_elements fixture_env_bad_item "[5]" [PyVal.int 5]).1
    (by decide) rfl ⟨PyVal.int 5, by simp, rfl⟩

/-- C8 counterexample: a non-admin read flagged as many2one relation
resolution with a readable parent model returns True even though the
registry has no model under the requested name, so the claim as stated
(False whenever the registry lacks the model) fails. -/
theorem can_access_missing_model_counterexample :
    reg_get_model fixture_reg "ghost" = Option.none
    ∧ fixture_dispatcher.role = some ⟨"dispatcher"⟩
    ∧ can_access_record fixture_reg (some fixture_dispatcher) "ghost" "read"
        (some [("is_many2one_relation", PyVal.bool true), ("parent_model", PyVal.str "m")])
      = PyVal.bool true := ⟨rfl, rfl, rfl⟩

/-- C8 (amended): admin is authorized for every model, action and
context; for a non-admin role on a call without a relation-resolution
context, a missing model, a model without _role_permissions, a missing
role entry, or a role entry without the action all deny (False, no
exception), and a present action entry is returned as stored — hence
read:true/write:false denies write and read:true/write:true allows
it. -/
theorem can_access_role_semantics
    (reg : List (String × ModelCls)) (u : PolicyUser) (r : RoleData)
    (model_name action : String) (context : Option (List (String × PyVal))) :
    (u.role = some r → r.name = "admin" →
       can_access_record reg (some u) model_name action context = PyVal.bool true)
    ∧ (u.role = some r → r.name ≠ "admin" →
       (reg_get_model reg model_name = Option.none →
          can_access_record reg (some u) model_name action Option.none = PyVal.bool false)
       ∧ (∀ m, reg_get_model reg model_name = some m → m.role_permissions = Option.none →
          can_access_record reg (some u) model_name action Option.none = PyVal.bool false)
       ∧ (∀ m perms, reg_get_model reg model_name = some m →
            m.role_permissions = some perms → lookup_role perms r.name = Option.none →
          can_access_record reg (some u) model_name action Option.none = PyVal.bool false)
       ∧ (∀ m perms entry, reg_get_model reg model_name = some m →
            m.role_permissions = some perms → lookup_role perms r.name = some entry →
            dget entry action = Option.none →
          can_access_record reg (some u) model_name action Option.none = PyVal.bool false)
       ∧ (∀ m perms entry pv, reg_get_model reg model_name = some m →
            m.role_permissions = some perms → lookup_role perms r.name = some entry →
            dget entry action = some pv →
          can_access_record reg (some u) model_name action Option.none = pv)) := by
  constructor
  · intro hrole hadmin
    simp [can_access_record, hrole, hadmin]
  · intro hrole hne
    have hb : (r.name == "admin") = false := by simp [hne]
    refine ⟨?_, ?_, ?_, ?_, ?_⟩
    · intro hreg
      simp [can_access_record, hrole, hb, truthyCtx, hreg]
    · intro m hreg hperm
      simp [can_access_record, hrole, hb, truthyCtx, hreg, hperm]
    · intro m perms hreg hperm hlook
      simp [can_access_record, hrole, hb, truthyCtx, hreg, hperm, hlook]
    · intro m perms entry hreg hperm hlook hact
      simp [can_access_record, hrole, hb, truthyCtx, hreg, hperm, hlook, hact]
    · intro m perms entry pv hreg hperm hlook hact
      simp [can_access_record, hrole, hb, truthyCtx, hreg, hperm, hlook, hact]

/-- C8 witness: the admin, dispatcher and fleet_manager scenarios at the
concrete fixture registry. -/
theorem can_access_role_semantics_witness :
    can_access_record fixture_reg (some fixture_admin) "anything" "delete" Option.none
      = PyVal.bool true
    ∧ can_access_record fixture_reg (some fixture_dispatcher) "m" "write" Option.none
      = PyVal.bool false
    ∧ can_access_record fixture_reg (some fixture_manager) "m" "write" Option.none
      = PyVal.bool true
    ∧ can_access_record fixture_reg (some fixture_dispatcher) "ghost" "write" Option.none
      = PyVal.bool false
    ∧ can_access_record fixture_reg (some fixture_dispatcher) "m" "delete" Option.none
      = PyVal.bool false := by
  refine ⟨?_, ?_, ?_, ?_, ?_⟩
  · exact (can_access_role_semantics fixture_reg fixture_admin ⟨"admin"⟩
      "anything" "delete" Option.none).1 rfl rfl
  · exact ((can_access_role_semantics fixture_reg fixture_dispatcher ⟨"dispatcher"⟩
      "m" "write" Option.none).2 rfl (by decide)).2.2.2.2 _ _ _ _ rfl rfl rfl rfl
  · exact ((can_access_role_semantics fixture_reg fixture_manager ⟨"fleet_manager"⟩
      "m" "write" Option.none).2 rfl (by decide)).2.2.2.2 _ _ _ _ rfl rfl rfl rfl
  · exact ((can_access_role_semantics fixture_reg fixture_dispatcher ⟨"dispatcher"⟩
      "ghost" "write" Option.none).2 rfl (by decide)).1 rfl
  · exact ((can_access_role_semantics fixture_reg fixture_dispatcher ⟨"dispatcher"⟩
      "m" "delete" Option.none).2 rfl (by decide)).2.2.2.1 _ _ _ rfl rfl rfl rfl

/-- C1 witness: a non-empty user context carrying a non-jwt _source tag
yields the default false on the fixture expression. -/
theorem safe_evaluate_invalid_context_returns_default_witness :
    safe_evaluate fixture_env fixture_expr [("a", PyVal.int 1)] false
      (some [("_source", PyVal.str "local")]) = false :=
  (safe_evaluate_invalid_context_returns_default fixture_env fixture_expr
    [("a", PyVal.int 1)] false [("_source", PyVal.str "local")]).1
    (by simp) (by decide)

/-- C9: get_domain_filter returns the role's declared domain resolved
against the acting user: each 3-element tuple/list whose value is a
user.-prefixed string is replaced (as a tuple) by the concrete resolved
value, is dropped altogether when resolution reaches None, other
3-element criteria pass through unchanged, and criteria that are not
3-element tuples/lists are dropped. -/
theorem domain_filter_resolves_user_references
    (reg : List (String × ModelCls)) (u : PolicyUser) (r : RoleData)
    (model_name : String) (m : ModelCls)
    (perms : List (String × List (String × PyVal))) (entry : List (String × PyVal))
    (dom : List PyVal) (user : PyVal) (f o : PyVal) (s : String) (c : PyVal) :
    (u.role = some r → reg_get_model reg model_name = some m →
     m.role_permissions = some perms → lookup_role perms r.name = some entry →
     (dget entry "domain").getD (.list []) = .list dom →
       get_domain_filter reg (some u) model_name
         = resolve_domain_context dom (.obj u.attrs))
    ∧ resolve_domain_context dom user = dom.filterMap (resolve_criterion user)
    ∧ (strStartsWithStr s "user." = true →
        (resolve_user_path user (strSplitChar s '.').tail = PyVal.none →
           resolve_criterion user (.tuple [f, o, .str s]) = Option.none)
        ∧ (resolve_user_path user (strSplitChar s '.').tail ≠ PyVal.none →
           resolve_criterion user (.tuple [f, o, .str s])
             = some (.tuple [f, o, resolve_user_path user (strSplitChar s '.').tail]))
        ∧ (resolve_user_path user (strSplitChar s '.').tail ≠ PyVal.none →
           resolve_criterion user (.list [f, o, .str s])
             = some (.tuple [f, o, resolve_user_path user (strSplitChar s '.').tail])))
    ∧ (strStartsWithStr s "user." = false →
        resolve_criterion user (.tuple [f, o, .str s]) = some (.tuple [f, o, .str s]))
    ∧ ((match c with
        | .tuple [_, _, _] => false
        | .list [_, _, _] => false
        | _ => true) = true → resolve_criterion user c = Option.none) := by
  refine ⟨?_, rfl, ?_, ?_, ?_⟩
  · intro h1 h2 h3 h4 h5
    simp [get_domain_filter, h1, h2, h3, h4, h5]
  · intro hs
    refine ⟨?_, ?_, ?_⟩
    · intro h
      simp [resolve_criterion, hs, h]
    · intro h
      cases hr : resolve_user_path user (strSplitChar s '.').tail <;>
        first
          | exact absurd hr h
          | simp [resolve_criterion, hs, hr]
    · intro h
      cases hr : resolve_user_path user (strSplitChar s '.').tail <;>
        first
          | exact absurd hr h
          | simp [resolve_criterion, hs, hr]
  · intro hs
    simp [resolve_criterion, hs]
  · intro hc
    unfold resolve_criterion
    split
    · simp at hc
    · simp at hc
    · simp at hc
    · simp at hc
    · rfl

/-- C9 witness: the fleet_manager fixture domain — a user.id criterion
resolved to 7, an invalid junk criterion dropped, and a literal
criterion passed through. -/
theorem domain_filter_resolves_user_references_witness :
    get_domain_filter fixture_reg (some fixture_manager) "m"
      = [PyVal.tuple [PyVal.str "driver_id", PyVal.str "=", PyVal.int 7],
         PyVal.tuple [PyVal.str "status", PyVal.str "=", PyVal.str "active"]] := by
  have h := (domain_filter_resolves_user_references fixture_reg fixture_manager
    ⟨"fleet_manager"⟩ "m"
    ⟨some [("dispatcher", fixture_entry_dispatcher), ("fleet_manager", fixture_entry_manager)]⟩
    [("dispatcher", fixture_entry_dispatcher), ("fleet_manager", fixture_entry_manager)]
    fixture_entry_manager
    [PyVal.tuple [PyVal.str "driver_id", PyVal.str "=", PyVal.str "user.id"],
     PyVal.str "junk",
     PyVal.tuple [PyVal.str "status", PyVal.str "=", PyVal.str "active"]]
    (PyVal.obj fixture_manager.attrs) PyVal.none PyVal.none "" PyVal.none).1
    rfl rfl rfl rfl rfl
  rw [h]
  rfl

/-- A declared-unique column whose incoming value an existing row holds
guarantees the pre-check finds some conflict. -/
lemma find_unique_conflict_isSome (cols : List ColumnSpec)
    (db : List (List (String × PyVal))) (data : List (String × PyVal))
    (col : ColumnSpec) (v : PyVal)
    (hmem : col ∈ cols) (hu : col.unique = true)
    (hv : dget data col.name = some v) (hnn : is_none v = false)
    (hex : row_holds db col.name v = true) :
    ∃ cv, find_unique_conflict cols db data = some cv := by
  induction cols with
  | nil => exact absurd hmem (List.not_mem_nil col)
  | cons c rest ih =>
    rcases List.mem_cons.mp hmem with rfl | hm
    · refine ⟨(col, v), ?_⟩
      unfold find_unique_conflict
      simp [hu, hv, hnn, hex]
    · cases hc : (if c.unique then dget data c.name else Option.none) with
      | none =>
        rcases ih hm with ⟨cv, hcv⟩
        exact ⟨cv, by simp [find_unique_conflict, hc, hcv]⟩
      | some w =>
        by_cases hcc : (!is_none w && row_holds db c.name w) = true
        · exact ⟨(c, w), by simp [find_unique_conflict, hc, hcc]⟩
        · rcases ih hm with ⟨cv, hcv⟩
          refine ⟨cv, ?_⟩
          unfold find_unique_conflict
          rw [hc]
          simp only [Bool.not_eq_true] at hcc
          simp [hcc, hcv]

/-- C4: the uniqueness pre-check raises an already-exists UserError
before any insert is attempted (the outcome is the same for every
storage behaviour, so no row is inserted), a declared-unique column
with an existing duplicate always trips the pre-check, and a storage
IntegrityError that still arrives is translated — unique-constraint
and foreign-key messages to UserError (the latter with the
cannot-complete message outside the is-still-referenced delete case),
anything else to ValidationError — so a raw IntegrityError never
escapes create. -/
theorem create_uniqueness_and_translation
    (cols : List ColumnSpec) (db : List (List (String × PyVal)))
    (vals defaults : List (String × PyVal)) (race : Option String) (msg : String)
    (col : ColumnSpec) (v : PyVal) :
    (col ∈ cols → col.unique = true →
     dget (merge_defaults vals defaults) col.name = some v → is_none v = false →
     row_holds db col.name v = true →
       ∃ cv, find_unique_conflict cols db (merge_defaults vals defaults) = some cv)
    ∧ (∀ c w, find_unique_conflict cols db (merge_defaults vals defaults) = some (c, w) →
       create_record cols db vals defaults race
         = .error (.userError ("The " ++ c.label ++ " " ++ pyStr w ++ " already exists.")))
    ∧ (find_unique_conflict cols db (merge_defaults vals defaults) = Option.none →
        create_record cols db vals defaults Option.none
          = .ok (db ++ [merge_defaults vals defaults])
        ∧ (strContainsSub (strLower msg) "foreign key constraint" = true →
            ∃ m, create_record cols db vals defaults (some msg) = .error (.userError m))
        ∧ (strContainsSub (strLower msg) "foreign key constraint" = true →
           (strContainsSub msg "violates foreign key constraint" = false
             ∨ strContainsSub msg "is still referenced" = false) →
            create_record cols db vals defaults (some msg)
              = .error (.userError
                  ("Cannot complete this operation due to data relationships. Details: " ++ msg)))
        ∧ (strContainsSub (strLower msg) "foreign key constraint" = false →
           strContainsSub (strLower msg) "unique constraint" = true →
            create_record cols db vals defaults (some msg)
              = .error (.userError
                  ("A record with same key values already exists. Details: " ++ msg)))
        ∧ (strContainsSub (strLower msg) "foreign key constraint" = false →
           strContainsSub (strLower msg) "unique constraint" = false →
            create_record cols db vals defaults (some msg)
              = .error (.validationError ("Database error: " ++ msg))))
    ∧ (∀ m, create_record cols db vals defaults race ≠ .error (.rawIntegrityError m)) := by
  refine ⟨?_, ?_, ?_, ?_⟩
  · intro h1 h2 h3 h4 h5
    exact find_unique_conflict_isSome cols db (merge_defaults vals defaults) col v h1 h2 h3 h4 h5
  · intro c w h
    unfold create_record
    rw [h]
  · intro h
    refine ⟨?_, ?_, ?_, ?_, ?_⟩
    · unfold create_record
      rw [h]
    · intro hfk
      unfold create_record
      rw [h]
      by_cases hsr : (strContainsSub msg "violates foreign key constraint"
          && strContainsSub msg "is still referenced") = true
      · exact ⟨"Cannot delete this record because it has related data that depends on it. Please remove the related data first or contact your administrator.",
          by simp [hfk, hsr]⟩
      · exact ⟨"Cannot complete this operation due to data relationships. Details: " ++ msg,
          by simp [hfk, hsr]⟩
    · intro hfk hnsr
      unfold create_record
      rw [h]
      have : (strContainsSub msg "violates foreign key constraint"
          && strContainsSub msg "is still referenced") = false := by
        rcases hnsr with h1 | h1 <;> simp [h1]
      simp [hfk, this]
    · intro hfk hu
      unfold create_record
      rw [h]
      simp [hfk, hu]
    · intro hfk hu
      unfold create_record
      rw [h]
      simp [hfk, hu]
  · intro m
    unfold create_record
    cases hf : find_unique_conflict cols db (merge_defaults vals defaults) with
    | some cv => simp
    | none =>
      cases race with
      | none => simp
      | some msg2 =>
        by_cases h1 : strContainsSub (strLower msg2) "foreign key constraint" = true
        · by_cases h2 : (strContainsSub msg2 "violates foreign key constraint"
              && strContainsSub msg2 "is still referenced") = true
          · simp [h1, h2]
          · simp [h1, h2]
        · by_cases h2 : strContainsSub (strLower msg2) "unique constraint" = true
          · simp [h1, h2]
          · simp [h1, h2]

/-- C4 witness: the plate fixture — a duplicate plate trips the
pre-check regardless of the storage outcome, and concrete
unique-constraint / foreign-key / other IntegrityError messages are
translated to UserError, UserError and ValidationError. -/
theorem create_uniqueness_and_translation_witness :
    create_record fixture_cols fixture_existing [("plate", PyVal.str "X1")] [] Option.none
      = .error (.userError "The License Plate X1 already exists.")
    ∧ create_record [] [] [("plate", PyVal.str "X1")] []
        (some "duplicate key value violates unique constraint vehicles_plate_key")
      = .error (.userError ("A record with same key values already exists. Details: "
          ++ "duplicate key value violates unique constraint vehicles_plate_key"))
    ∧ create_record [] [] [("plate", PyVal.str "X1")] []
        (some "insert or update on table trip violates foreign key constraint trip_vehicle_fkey")
      = .error (.userError ("Cannot complete this operation due to data relationships. Details: "
          ++ "insert or update on table trip violates foreign key constraint trip_vehicle_fkey"))
    ∧ create_record [] [] [("plate", PyVal.str "X1")] [] (some "deadlock detected")
      = .error (.validationError ("Database error: " ++ "deadlock detected")) := by
  refine ⟨?_, ?_, ?_, ?_⟩
  · exact (create_uniqueness_and_translation fixture_cols fixture_existing
      [("plate", PyVal.str "X1")] [] Option.none "" ⟨"plate", true, "License Plate"⟩
      (PyVal.str "X1")).2.1 ⟨"plate", true, "License Plate"⟩ (PyVal.str "X1") rfl
  · exact ((create_uniqueness_and_translation [] [] [("plate", PyVal.str "X1")] []
      (some "duplicate key value violates unique constraint vehicles_plate_key")
      "duplicate key value violates unique constraint vehicles_plate_key"
      ⟨"plate", true, "License Plate"⟩ (PyVal.str "X1")).2.2.1 rfl).2.2.2.1
      (by decide) (by decide)
  · exact ((create_uniqueness_and_translation [] [] [("plate", PyVal.str "X1")] []
      (some "insert or update on table trip violates foreign key constraint trip_vehicle_fkey")
      "insert or update on table trip violates foreign key constraint trip_vehicle_fkey"
      ⟨"plate", true, "License Plate"⟩ (PyVal.str "X1")).2.2.1 rfl).2.2.1
      (by decide) (Or.inr (by decide))
  · exact ((create_uniqueness_and_translation [] [] [("plate", PyVal.str "X1")] []
      (some "deadlock detected") "deadlock detected"
      ⟨"plate", true, "License Plate"⟩ (PyVal.str "X1")).2.2.1 rfl).2.2.2.2
      (by decide) (by decide)

/-- Membership distributes over append for Python membership. -/
lemma pyMem_append (x : PyVal) (a b : List PyVal) :
    pyMem x (a ++ b) = (pyMem x a || pyMem x b) := by
  induction a with
  | nil => simp [pyMem]
  | cons y t ih => simp [pyMem, ih, Bool.or_assoc]

/-- Ints survive the id extraction unchanged. -/
lemma filterMap_item_id_int (xs : List Int) :
    (xs.map PyVal.int).filterMap m2m_item_id = xs.map PyVal.int := by
  induction xs with
  | nil => rfl
  | cons a t ih => simp [m2m_item_id, ih]

/-- Membership in the set-fold over int ids. -/
lemma pyMem_int_fold (zs : List Int) :
    ∀ (acc : List PyVal) (k : Int),
      pyMem (.int k) ((zs.map PyVal.int).foldl py_set_insert acc)
        = (pyMem (.int k) acc || decide (k ∈ zs)) := by
  induction zs with
  | nil => intro acc k; simp
  | cons z t ih =>
    intro acc k
    rw [List.map_cons, List.foldl_cons, ih]
    by_cases hzk : k = z
    · subst hzk
      have hmem : pyMem (PyVal.int k) (py_set_insert acc (PyVal.int k)) = true := by
        unfold py_set_insert
        by_cases hm : pyMem (PyVal.int k) acc = true
        · simp [hm]
        · rw [if_neg (by simp [hm]), pyMem_append]
          simp [pyMem, pyEq]
      rw [hmem]
      simp
    · have hstep : pyMem (PyVal.int k) (py_set_insert acc (PyVal.int z))
          = pyMem (PyVal.int k) acc := by
        unfold py_set_insert
        by_cases hm : pyMem (PyVal.int z) acc = true
        · simp [hm]
        · rw [if_neg (by simp [hm]), pyMem_append]
          have hz : pyMem (PyVal.int k) [PyVal.int z] = false := by
            simp [pyMem, pyEq, hzk]
          simp [hz]
      rw [hstep]
      simp [List.mem_cons, hzk]

/-- Every element the set-fold produces is either from the accumulator
or the int of a source id. -/
lemma mem_int_fold_subset (zs : List Int) :
    ∀ (acc : List PyVal) (a : PyVal),
      a ∈ (zs.map PyVal.int).foldl py_set_insert acc →
      a ∈ acc ∨ ∃ k, k ∈ zs ∧ a = PyVal.int k := by
  induction zs with
  | nil => intro acc a h; exact Or.inl (by simpa using h)
  | cons z t ih =>
    intro acc a h
    rw [List.map_cons, List.foldl_cons] at h
    rcases ih _ a h with hacc | ⟨k, hk, rfl⟩
    · unfold py_set_insert at hacc
      split_ifs at hacc
      · exact Or.inl hacc
      · rcases List.mem_append.mp hacc with h1 | h1
        · exact Or.inl h1
        · rw [List.mem_singleton] at h1
          subst h1
          exact Or.inr ⟨z, List.mem_cons_self z t, rfl⟩
    · exact Or.inr ⟨k, List.mem_cons_of_mem _ hk, rfl⟩

/-- Two id lists with the same elements normalize to equal id sets. -/
lemma m2m_ids_perm_eq (xs ys : List Int) (hp : xs.Perm ys) :
    idSetEq (m2m_ids (.list (xs.map PyVal.int))) (m2m_ids (.list (ys.map PyVal.int))) = true := by
  have hids : ∀ (zs : List Int),
      m2m_ids (.list (zs.map PyVal.int)) = (zs.map PyVal.int).foldl py_set_insert [] := by
    intro zs
    show ((zs.map PyVal.int).filterMap m2m_item_id).foldl py_set_insert [] = _
    rw [filterMap_item_id_int]
  unfold idSetEq
  rw [Bool.and_eq_true, List.all_eq_true, List.all_eq_true]
  constructor
  · intro a ha
    rw [hids] at ha ⊢
    rcases mem_int_fold_subset xs [] a ha with h1 | ⟨k, hk, rfl⟩
    · exact absurd h1 (List.not_mem_nil a)
    · rw [pyMem_int_fold]
      simp [hp.mem_iff.mp hk]
  · intro a ha
    rw [hids] at ha ⊢
    rcases mem_int_fold_subset ys [] a ha with h1 | ⟨k, hk, rfl⟩
    · exact absurd h1 (List.not_mem_nil a)
    · rw [pyMem_int_fold]
      simp [hp.mem_iff.mpr hk]

/-- The many2many branch of process_field_change returns no change when
the id sets agree. -/
lemma pfc_m2m_none (o : AuditOracle) (fn fl : String) (meta : List (String × PyVal))
    (ov nv : PyVal) (h : idSetEq (m2m_ids ov) (m2m_ids nv) = true) :
    process_field_change o fn fl "many2many" meta ov nv = Option.none := by
  show (if idSetEq (m2m_ids ov) (m2m_ids nv) = true then Option.none else _) = Option.none
  rw [if_pos h]

/-- C5: the audit diff never records a no-op — whenever the per-type
normalized values are equal (many2one by id, many2many by id set,
date/datetime and numeric fields by parsed value, everything else by
formatted string), process_field_change produces no change record; in
particular, writing the same set of integer ids in any other order to a
many2many field produces no change record; and when every tracked
field diffs to nothing, track_field_changes adds no audit entry at
all. -/
theorem no_op_writes_add_no_audit_entries
    (o : AuditOracle) (fn fl ft : String) (meta : List (String × PyVal))
    (ov nv : PyVal) (xs ys : List Int)
    (tracked : List (String × List (String × PyVal)))
    (old_values new_values : List (String × PyVal)) :
    (audit_norm_eq o ft meta ov nv = true →
       process_field_change o fn fl ft meta ov nv = Option.none)
    ∧ (xs.Perm ys →
       process_field_change o fn fl "many2many" meta
         (.list (xs.map PyVal.int)) (.list (ys.map PyVal.int)) = Option.none)
    ∧ ((∀ fm ∈ tracked, track_one_field o old_values new_values fm = Option.none) →
       track_field_changes o tracked old_values new_values = Option.none) := by
  refine ⟨?_, ?_, ?_⟩
  · intro h
    by_cases h1 : (ft == "many2one") = true
    · simp only [audit_norm_eq, h1, if_true] at h
      simp only [process_field_change, h1, if_true]
      simp [h]
    · rw [Bool.not_eq_true] at h1
      by_cases h2 : (ft == "many2many") = true
      · simp only [audit_norm_eq, h1, h2, Bool.false_eq_true, if_false, if_true] at h
        simp only [process_field_change, h1, h2, Bool.false_eq_true, if_false, if_true]
        simp [h]
      · rw [Bool.not_eq_true] at h2
        by_cases h3 : (ft == "datetime" || ft == "date") = true
        · simp only [audit_norm_eq, h1, h2, h3, Bool.false_eq_true, if_false, if_true] at h
          simp only [process_field_change, h1, h2, h3, Bool.false_eq_true, if_false, if_true]
          simp [h]
        · rw [Bool.not_eq_true] at h3
          by_cases h4 : (ft == "float" || ft == "integer") = true
          · simp only [audit_norm_eq, h1, h2, h3, h4, Bool.false_eq_true, if_false, if_true] at h
            simp only [process_field_change, h1, h2, h3, h4, Bool.false_eq_true, if_false, if_true]
            simp [h]
          · rw [Bool.not_eq_true] at h4
            simp only [audit_norm_eq, h1, h2, h3, h4, Bool.false_eq_true, if_false] at h
            simp only [process_field_change, h1, h2, h3, h4, Bool.false_eq_true, if_false]
            simp [h]
  · intro hp
    exact pfc_m2m_none o fn fl meta _ _ (m2m_ids_perm_eq xs ys hp)
  · intro h
    unfold track_field_changes
    rw [List.filterMap_eq_nil_iff.mpr h]

/-- C5 witness: a permuted id list, a same-string char write and a
fully no-op tracked write each produce no audit output. -/
theorem no_op_writes_add_no_audit_entries_witness :
    process_field_change fixture_audit "tags" "Tags" "many2many" []
      (.list [PyVal.int 1, PyVal.int 2, PyVal.int 3])
      (.list [PyVal.int 3, PyVal.int 1, PyVal.int 2]) = Option.none
    ∧ process_field_change fixture_audit "name" "Name" "char" []
      (PyVal.str "Same Name") (PyVal.str "Same Name") = Option.none
    ∧ track_field_changes fixture_audit
        [("name", [("type", PyVal.str "char"), ("tracking", PyVal.bool true)])]
        [("name", PyVal.str "Same Name")] [("name", PyVal.str "Same Name")]
      = Option.none := by
  refine ⟨?_, ?_, ?_⟩
  · exact (no_op_writes_add_no_audit_entries fixture_audit "tags" "Tags" "many2many" []
      PyVal.none PyVal.none [1, 2, 3] [3, 1, 2] [] [] []).2.1 (by decide)
  · exact (no_op_writes_add_no_audit_entries fixture_audit "name" "Name" "char" []
      (PyVal.str "Same Name") (PyVal.str "Same Name") [] [] [] [] []).1 rfl
  · exact (no_op_writes_add_no_audit_entries fixture_audit "name" "Name" "char" []
      PyVal.none PyVal.none [] []
      [("name", [("type", PyVal.str "char"), ("tracking", PyVal.bool true)])]
      [("name", PyVal.str "Same Name")] [("name", PyVal.str "Same Name")]).2.2
      (by
        intro fm hfm
        rw [List.mem_singleton] at hfm
        subst hfm
        rfl)

end ZnovaFleet
